import Mathlib

/-!
# Locking module (CanvasDM/locking_module): registry, facade and shell

A shallow embedding of

* `custom/MG100/source/locking_table.c` (the generated registry of the MG100 product),
* `universal/include/locking_defs.h` (types and constants),
* `universal/source/locking.c` (the facade: type/name/id queries, take, give, show),
* `universal/source/locking_shell.c` (the shell commands),

followed by theorems about them.

Conventions.  Machine integers are natural numbers, reduced explicitly where the C code
converts (`uint16_t` ids: `% 65536`).  A C string is a `String` (it holds no NUL).  A pointer
that may be `NULL` is an `Option`.  A pointer to a registry entry is the element offset from
`&LOCKING_TABLE[0]`.  Stateful code passes the state of the surrounding system explicitly:
the RTOS primitives and the output sinks are the fields of `zephyr σ`, for any state type `σ`.
-/

namespace Locking

/-! ## Build configuration -/

/-- The Kconfig symbols the sources test, and the platform constants they depend on. -/
structure Config where
  /-- `CONFIG_ATTR_STRING_NAME`, tested by the `LOCK` shorthand of `locking_table.c`. -/
  ATTR_STRING_NAME : Bool
  /-- `CONFIG_LOCKING_STRING_NAME`, tested by `locking_get_name` and `locking_get_id`. -/
  LOCKING_STRING_NAME : Bool
  /-- `CONFIG_LOCKING_VERBOSE_DEBUGGING`. -/
  LOCKING_VERBOSE_DEBUGGING : Bool
  /-- `CONFIG_THREAD_NAME`. -/
  THREAD_NAME : Bool
  /-- `CONFIG_THREAD_MAX_NAME_LEN`, when defined. -/
  THREAD_MAX_NAME_LEN : Option Nat
  /-- `CONFIG_LOCKING_SHOW_FMT`, the format of the id and name columns. -/
  LOCKING_SHOW_FMT : String
  /-- Width in bits of `unsigned long` on the target. -/
  ULONG_BITS : Nat

/-! ## `locking_defs.h` -/

/-- The C type `uint16_t` of lock ids; values are kept below `65536`. -/
abbrev locking_id_t := Nat

/-- The C type `uint16_t` of table positions. -/
abbrev locking_index_t := Nat

def UINT16_MAX : Nat := 65535

/-- `#define LOCKING_INVALID_ID (UINT16_MAX - 1)`. -/
def LOCKING_INVALID_ID : locking_id_t := UINT16_MAX - 1

/-- `enum locking_type`. -/
inductive locking_type where
  | LOCKING_TYPE_UNKNOWN
  | LOCKING_TYPE_ANY
  | LOCKING_TYPE_MUTEX
  | LOCKING_TYPE_SEMAPHORE
  deriving DecidableEq, Repr

open locking_type

/-- Address of a kernel object (`struct k_mutex` or `struct k_sem`), the target of `pData`. -/
abbrev kobj_ptr := Nat

/-- `struct locking_table_entry`. -/
structure locking_table_entry where
  id : locking_id_t
  name : String
  pData : kobj_ptr
  type : locking_type
  count : Nat
  limit : Nat
  current : Nat
  deriving DecidableEq, Repr

/-- Pointer to a registry entry, as the element offset from `&LOCKING_TABLE[0]`. -/
abbrev entry_ptr := Nat

/-! ## errno values -/

def EPERM : Int := 1
def EAGAIN : Int := 11
def EBUSY : Int := 16
def EINVAL : Int := 22

/-! ## `locking_table.c` -/

/-- The product-specific registry: the constants `LOCKING_TABLE_SIZE` and
`LOCKING_TABLE_MAX_ID` of the generated header `locking_table.h`, and what `locking_table.c`
defines with them: the array `LOCKING_TABLE`, declared with `LOCKING_TABLE_SIZE` elements, and
the id map `LOCKING_MAP` (`none` is `NULL`, `some k` is `&LOCKING_TABLE[k]`), whose size the
`BUILD_ASSERT` ties to `LOCKING_TABLE_MAX_ID`. -/
structure locking_table where
  LOCKING_TABLE_SIZE : Nat
  LOCKING_TABLE_MAX_ID : Nat
  LOCKING_TABLE : List locking_table_entry
  array_size : LOCKING_TABLE.length = LOCKING_TABLE_SIZE
  LOCKING_MAP : List (Option entry_ptr)
  build_assert : LOCKING_MAP.length = LOCKING_TABLE_MAX_ID + 1

/-- What a read through a pointer that addresses no table element yields in the model
(undefined in C): an all-zero entry. -/
def zero_entry : locking_table_entry :=
  { id := 0, name := "", pData := 0, type := LOCKING_TYPE_UNKNOWN,
    count := 0, limit := 0, current := 0 }

/-- The read `*entry` of a registry entry. -/
def deref (tbl : locking_table) (entry : entry_ptr) : locking_table_entry :=
  tbl.LOCKING_TABLE.getD entry zero_entry

/-- Address of the kernel object `static struct k_mutex adc`. -/
def adc : kobj_ptr := 0

/-- The shorthand `LOCK(n)`: `STRINGIFY(n), &n` under `CONFIG_ATTR_STRING_NAME`,
otherwise an empty name. -/
def LOCK (cfg : Config) (n : String) (addr : kobj_ptr) : String × kobj_ptr :=
  if cfg.ATTR_STRING_NAME then (n, addr) else ("", addr)

/-- The array `LOCKING_TABLE` of the MG100: one mutex, id 0. -/
def MG100_LOCKING_TABLE (cfg : Config) : List locking_table_entry :=
  [ { id := 0, name := (LOCK cfg "adc" adc).1, pData := (LOCK cfg "adc" adc).2,
      type := LOCKING_TYPE_MUTEX, count := 0, limit := 0, current := 0 } ]

/-- The array `LOCKING_MAP` of the MG100. -/
def MG100_LOCKING_MAP : List (Option entry_ptr) := [ some 0 ]

/-- Modelled from the spec: the generated header `locking_table.h`, which defines
`LOCKING_TABLE_SIZE`, is not among the sources.  The registry is "configured with one mutex
entry at ID 0", the one element that `locking_table.c` initialises, so the size is 1. -/
def MG100_LOCKING_TABLE_SIZE : Nat := 1

/-- Modelled from the spec: the generated header `locking_table.h`, which defines
`LOCKING_TABLE_MAX_ID`, is not among the sources.  With "one mutex entry at ID 0" the largest
id is 0, the one value that passes the `BUILD_ASSERT` of `locking_table.c`, because
`LOCKING_MAP` has one element. -/
def MG100_LOCKING_TABLE_MAX_ID : Nat := 0

/-- The registry of the MG100 product. -/
def MG100 (cfg : Config) : locking_table :=
  { LOCKING_TABLE_SIZE := MG100_LOCKING_TABLE_SIZE
    LOCKING_TABLE_MAX_ID := MG100_LOCKING_TABLE_MAX_ID
    LOCKING_TABLE := MG100_LOCKING_TABLE cfg
    array_size := rfl
    LOCKING_MAP := MG100_LOCKING_MAP
    build_assert := rfl }

/-- The function `locking_map`: `NULL` above `LOCKING_TABLE_MAX_ID`, else `LOCKING_MAP[id]`. -/
def locking_map (tbl : locking_table) (id : locking_id_t) : Option entry_ptr :=
  if h : id > tbl.LOCKING_TABLE_MAX_ID then
    none
  else
    tbl.LOCKING_MAP.get ⟨id, by have := tbl.build_assert; have := Nat.le_of_not_gt h; omega⟩

/-- The macro `PART_OF_ARRAY(LOCKING_TABLE, entry)`: the pointer lies between
`&LOCKING_TABLE[0]` and the end of the array. -/
def PART_OF_ARRAY (tbl : locking_table) (entry : entry_ptr) : Bool :=
  decide (0 ≤ entry ∧ entry < tbl.LOCKING_TABLE.length)

/-- The function `locking_table_index`, in a build with assertions: `none` when the
`__ASSERT` fires, else the pointer difference `entry - &LOCKING_TABLE[0]` converted to
`locking_index_t`. -/
def locking_table_index (tbl : locking_table) (entry : entry_ptr) : Option locking_index_t :=
  if PART_OF_ARRAY tbl entry then some ((entry - 0) % 65536) else none

/-! ## `locking.c`: queries -/

def EMPTY_STRING : String := ""

/-- The function `locking_get_type`. -/
def locking_get_type (tbl : locking_table) (id : locking_id_t) : locking_type :=
  match locking_map tbl id with
  | some entry => (deref tbl entry).type
  | none => LOCKING_TYPE_UNKNOWN

/-- The function `locking_valid_id`. -/
def locking_valid_id (tbl : locking_table) (id : locking_id_t) : Bool :=
  (locking_map tbl id).isSome

/-- The function `locking_get_name`. -/
def locking_get_name (cfg : Config) (tbl : locking_table) (id : locking_id_t) : String :=
  if cfg.LOCKING_STRING_NAME then
    match locking_map tbl id with
    | some entry => (deref tbl entry).name
    | none => EMPTY_STRING
  else
    EMPTY_STRING

/-- The comparison of `strcmp` on the characters of two strings, up to the size of a
non-zero result: zero at a common end, else negative or positive as the first string has the
smaller or the larger character at the first position where the two differ (the end of a
string is its NUL, smaller than every character). -/
def strcmp_chars : List Char → List Char → Int
  | [], [] => 0
  | [], _ :: _ => -1
  | _ :: _, [] => 1
  | a :: s, b :: t =>
    if a = b then strcmp_chars s t else if a.toNat < b.toNat then -1 else 1

/-- The C library's `strcmp`. -/
def strcmp (a b : String) : Int :=
  strcmp_chars a.data b.data

/-- The loop of `locking_get_id` from a position `i` on, over the elements
`LOCKING_TABLE[i], ..., LOCKING_TABLE[LOCKING_TABLE_SIZE - 1]`. -/
def locking_get_id_loop (name : String) : List locking_table_entry → locking_id_t
  | [] => LOCKING_INVALID_ID
  | e :: rest => if strcmp name e.name = 0 then e.id else locking_get_id_loop name rest

/-- The function `locking_get_id`. -/
def locking_get_id (cfg : Config) (tbl : locking_table) (name : String) : locking_id_t :=
  if cfg.LOCKING_STRING_NAME then
    locking_get_id_loop name tbl.LOCKING_TABLE
  else
    LOCKING_INVALID_ID

/-! ## The surrounding system: RTOS primitives and output sinks -/

/-- A thread control block (`struct k_thread`), as far as the sources read it: its address
and its `name` field. -/
structure k_thread where
  addr : Nat
  name : Option String
  deriving DecidableEq, Repr

/-- The kernel's `k_timeout_t`, a number of ticks. -/
abbrev k_timeout_t := Nat

/-- An argument of a printf-style call. -/
inductive fmt_arg where
  | d (v : Int)
  | s (v : String)
  deriving DecidableEq, Repr

/-- The C type `const struct shell *`. -/
abbrev shell_ptr := Nat

/-- The collaborators the module is linked against, over a state `σ` of the whole system:
the mutex and semaphore primitives of the kernel, the fields of `struct k_mutex` the module
reads, the timeout constructor `K_SECONDS`, `snprintk` with the format `"%p"`, and the three
output sinks.  A call that returns a status and changes the system returns both. -/
structure zephyr (σ : Type) where
  k_mutex_init : kobj_ptr → σ → σ
  k_mutex_lock : kobj_ptr → k_timeout_t → σ → Int × σ
  k_mutex_unlock : kobj_ptr → σ → Int × σ
  k_sem_take : kobj_ptr → k_timeout_t → σ → Int × σ
  k_sem_give : kobj_ptr → σ → σ
  k_sem_count_get : kobj_ptr → σ → Nat
  /-- The field `owner` of the mutex at an address. -/
  mutex_owner : kobj_ptr → σ → Option k_thread
  /-- The field `lock_count` of the mutex at an address. -/
  mutex_lock_count : kobj_ptr → σ → Nat
  K_SECONDS : Nat → k_timeout_t
  /-- The buffer contents after `snprintk(buffer, buffer_size, "%p", thread)`. -/
  snprintk_p : Nat → k_thread → String
  LOG_INF : String → List fmt_arg → σ → σ
  shell_print : shell_ptr → String → List fmt_arg → σ → σ
  shell_error : shell_ptr → String → List fmt_arg → σ → σ

/-! ## `locking.c`: show, take, give -/

/-- The constant `OUTPUT_THREAD_NAME_SIZE`. -/
def OUTPUT_THREAD_NAME_SIZE (cfg : Config) : Nat :=
  match cfg.THREAD_MAX_NAME_LEN with
  | some n => if n > 10 then n else 11
  | none => 11

/-- The function `plural`; its parameter is a `uint8_t`. -/
def plural (input : Nat) : String :=
  if input % 256 = 1 then EMPTY_STRING else "s"

/-- The function `get_mutex_thread_name` (both variants), returning the buffer contents;
`buffer_size` is a `uint8_t`. -/
def get_mutex_thread_name {σ : Type} (cfg : Config) (Z : zephyr σ)
    (mutex_owner_thread : Option k_thread) (buffer_size : Nat) : String :=
  match mutex_owner_thread with
  | none => ""
  | some t =>
    if cfg.THREAD_NAME then
      match t.name with
      | none => Z.snprintk_p (buffer_size % 256) t
      | some nm => String.mk (nm.data.take (buffer_size % 256 - 1))
    else
      Z.snprintk_p (buffer_size % 256) t

/-- The format and the arguments that `shell_show` and the verbose `show` hand to their
sink for an entry. -/
def show_line {σ : Type} (cfg : Config) (Z : zephyr σ) (tbl : locking_table)
    (entry : entry_ptr) (st : σ) : String × List fmt_arg :=
  let e := deref tbl entry
  match e.type with
  | LOCKING_TYPE_MUTEX =>
    let tmp_mutex := e.pData
    let thread_name_buffer :=
      get_mutex_thread_name cfg Z (Z.mutex_owner tmp_mutex st) (OUTPUT_THREAD_NAME_SIZE cfg)
    let lock_count := Z.mutex_lock_count tmp_mutex st
    (cfg.LOCKING_SHOW_FMT ++ ": mutex (%d lock%s held%s%s)",
      [.d e.id, .s e.name, .d lock_count, .s (plural lock_count),
       .s (if lock_count = 0 then "" else " by "), .s thread_name_buffer])
  | LOCKING_TYPE_SEMAPHORE =>
    let r := Z.k_sem_count_get e.pData st
    (cfg.LOCKING_SHOW_FMT ++ ": semaphore (%d of %d lock%s free)",
      [.d e.id, .s e.name, .d r, .d e.limit, .s (plural e.limit)])
  | ty =>
    (cfg.LOCKING_SHOW_FMT ++ ": unknown type %d",
      [.d e.id, .s e.name, .d (match ty with
        | LOCKING_TYPE_UNKNOWN => 0 | LOCKING_TYPE_ANY => 1
        | LOCKING_TYPE_MUTEX => 2 | LOCKING_TYPE_SEMAPHORE => 3)])

/-- The function `shell_show`. -/
def shell_show {σ : Type} (cfg : Config) (Z : zephyr σ) (tbl : locking_table)
    (shell : shell_ptr) (entry : entry_ptr) (st : σ) : Int × σ :=
  (0, Z.shell_print shell (show_line cfg Z tbl entry st).1 (show_line cfg Z tbl entry st).2 st)

/-- The function `show` of the verbose build. -/
def show_verbose {σ : Type} (cfg : Config) (Z : zephyr σ) (tbl : locking_table)
    (entry : entry_ptr) (st : σ) : Int × σ :=
  (0, Z.LOG_INF (show_line cfg Z tbl entry st).1 (show_line cfg Z tbl entry st).2 st)

/-- The function `locking_show`. -/
def locking_show {σ : Type} (cfg : Config) (Z : zephyr σ) (tbl : locking_table)
    (shell : shell_ptr) (id : locking_id_t) (st : σ) : Int × σ :=
  match locking_map tbl id with
  | some entry => shell_show cfg Z tbl shell entry st
  | none => (-EINVAL, st)

/-- The loop of `locking_show_all` over the positions `i, i + 1, ...` (`n` of them). -/
def locking_show_all_loop {σ : Type} (cfg : Config) (Z : zephyr σ) (tbl : locking_table)
    (shell : shell_ptr) : Nat → Nat → σ → σ
  | 0, _, st => st
  | n + 1, i, st =>
    locking_show_all_loop cfg Z tbl shell n (i + 1) (shell_show cfg Z tbl shell i st).2

/-- The function `locking_show_all`. -/
def locking_show_all {σ : Type} (cfg : Config) (Z : zephyr σ) (tbl : locking_table)
    (shell : shell_ptr) (st : σ) : Int × σ :=
  (0, locking_show_all_loop cfg Z tbl shell tbl.LOCKING_TABLE_SIZE 0 st)

/-- The function `locking_take`. -/
def locking_take {σ : Type} (cfg : Config) (Z : zephyr σ) (tbl : locking_table)
    (id : locking_id_t) (wait_time : k_timeout_t) (st : σ) : Int × σ :=
  match locking_map tbl id with
  | none => (-EINVAL, st)
  | some entry =>
    let e := deref tbl entry
    let r :=
      if e.type = LOCKING_TYPE_MUTEX then Z.k_mutex_lock e.pData wait_time st
      else if e.type = LOCKING_TYPE_SEMAPHORE then Z.k_sem_take e.pData wait_time st
      else (-EINVAL, st)
    if cfg.LOCKING_VERBOSE_DEBUGGING then (r.1, (show_verbose cfg Z tbl entry r.2).2) else r

/-- The function `locking_give`. -/
def locking_give {σ : Type} (cfg : Config) (Z : zephyr σ) (tbl : locking_table)
    (id : locking_id_t) (st : σ) : Int × σ :=
  match locking_map tbl id with
  | none => (-EINVAL, st)
  | some entry =>
    let e := deref tbl entry
    let r :=
      if e.type = LOCKING_TYPE_MUTEX then Z.k_mutex_unlock e.pData st
      else if e.type = LOCKING_TYPE_SEMAPHORE then (0, Z.k_sem_give e.pData st)
      else (-EINVAL, st)
    if cfg.LOCKING_VERBOSE_DEBUGGING then (r.1, (show_verbose cfg Z tbl entry r.2).2) else r

/-- The function `locking_table_initialise` of the MG100. -/
def locking_table_initialise {σ : Type} (Z : zephyr σ) (st : σ) : σ :=
  Z.k_mutex_init adc st

/-- The function `locking_table_reset` of the MG100 (empty). -/
def locking_table_reset {σ : Type} (st : σ) : σ := st

/-- The function `locking_init`. -/
def locking_init {σ : Type} (Z : zephyr σ) (st : σ) : Int × σ :=
  (0, locking_table_initialise Z st)

/-! ## The C library functions the shell uses -/

/-- The C library's `isspace` in the "C" locale. -/
def isspace (c : Char) : Bool :=
  c.toNat = 32 || (9 ≤ c.toNat && c.toNat ≤ 13)

/-- The C library's `isdigit`. -/
def isdigit (c : Char) : Bool :=
  48 ≤ c.toNat && c.toNat ≤ 57

/-- The C library's `isupper` in the "C" locale. -/
def isupper (c : Char) : Bool :=
  65 ≤ c.toNat && c.toNat ≤ 90

/-- The C library's `isalpha` in the "C" locale. -/
def isalpha (c : Char) : Bool :=
  isupper c || (97 ≤ c.toNat && c.toNat ≤ 122)

/-- The value of a character as a digit of `strtoul`: `0-9`, then letters from 10 on,
in either case; `none` for any other character. -/
def digit_of (c : Char) : Option Nat :=
  if isdigit c then some (c.toNat - 48)
  else if isalpha c then some (if isupper c then c.toNat - (65 - 10) else c.toNat - (97 - 10))
  else none

/-- `ULONG_MAX` of the target. -/
def ULONG_MAX (cfg : Config) : Nat := 2 ^ cfg.ULONG_BITS - 1

/-- The digit loop of `strtoul`: `acc` is the value so far, `any` is 0 before the first
digit, 1 after a digit, and -1 once the value has exceeded `ULONG_MAX`. -/
def strtoul_loop (umax base : Nat) : List Char → Nat → Int → Nat × Int
  | [], acc, any => (acc, any)
  | c :: s, acc, any =>
    match digit_of c with
    | none => (acc, any)
    | some d =>
      if d ≥ base then (acc, any)
      else if any < 0 ∨ acc > umax / base ∨ (acc = umax / base ∧ d > umax % base) then
        strtoul_loop umax base s acc (-1)
      else
        strtoul_loop umax base s (acc * base + d) 1

/-- The C library's `strtoul(nptr, NULL, base)` (ISO C; the library is not part of the
module): leading white space and one sign are skipped, under base 0 or 16 a `0x` or `0X`
selects base 16, under base 0 a leading `0` selects base 8 and anything else base 10; digits
are read while they are digits of the base; a value above `ULONG_MAX` gives `ULONG_MAX`, and
a minus sign negates the value in `unsigned long`. -/
def strtoul (cfg : Config) (nptr : String) (base : Nat) : Nat :=
  let s0 := nptr.data.dropWhile isspace
  let neg := decide (s0.head? = some '-')
  let s1 := if s0.head? = some '-' ∨ s0.head? = some '+' then s0.tail else s0
  let hex := decide ((base = 0 ∨ base = 16) ∧ s1.head? = some '0' ∧
    (s1.tail.head? = some 'x' ∨ s1.tail.head? = some 'X'))
  let s2 := if hex then s1.tail.tail else s1
  let base1 := if hex then 16 else base
  let base2 := if base1 = 0 then (if s2.head? = some '0' then 8 else 10) else base1
  let r := strtoul_loop (ULONG_MAX cfg) base2 s2 0 0
  if r.2 < 0 then ULONG_MAX cfg
  else if neg then (ULONG_MAX cfg + 1 - r.1) % (ULONG_MAX cfg + 1)
  else r.1

/-! ## `locking_shell.c` -/

/-- The functions of `locking.h` and `locking_table_private.h` that the shell calls. -/
structure locking_h (σ : Type) where
  locking_get_name : locking_id_t → String
  locking_get_id : String → locking_id_t
  locking_take : locking_id_t → k_timeout_t → σ → Int × σ
  locking_give : locking_id_t → σ → Int × σ
  locking_show : shell_ptr → locking_id_t → σ → Int × σ
  locking_show_all : shell_ptr → σ → Int × σ
  locking_table_reset : σ → σ

/-- The module's own implementation of `locking_h`: the functions of `locking.c` and of
the registry `tbl`. -/
def locking_c {σ : Type} (cfg : Config) (Z : zephyr σ) (tbl : locking_table) : locking_h σ :=
  { locking_get_name := locking_get_name cfg tbl
    locking_get_id := locking_get_id cfg tbl
    locking_take := locking_take cfg Z tbl
    locking_give := locking_give cfg Z tbl
    locking_show := locking_show cfg Z tbl
    locking_show_all := locking_show_all cfg Z tbl
    locking_table_reset := locking_table_reset }

def DEFAULT_WAIT_TIME_SECONDS : Nat := 3

/-- The function `is_string`: `str[0]` is the terminating NUL for the empty string. -/
def is_string (str : String) : Bool :=
  if isdigit (str.data.headD (Char.ofNat 0)) then false else true

/-- The shell's function `get_id`. -/
def get_id {σ : Type} (cfg : Config) (L : locking_h σ) (str : String) : locking_id_t :=
  if is_string str then
    L.locking_get_id str
  else
    strtoul cfg str 0 % 65536

/-- The element `argv[i]`, a `char *` that may be `NULL`; the shell fills `argv` with `NULL`
past its last argument. -/
def argv_at (argv : List (Option String)) (i : Nat) : Option String :=
  argv.getD i none

/-- The function `ats_show_cmd`. -/
def ats_show_cmd {σ : Type} (L : locking_h σ) (shell : shell_ptr) (st : σ) : Int × σ :=
  (0, (L.locking_show_all shell st).2)

/-- The function `ats_get_cmd`. -/
def ats_get_cmd {σ : Type} (cfg : Config) (Z : zephyr σ) (L : locking_h σ)
    (shell : shell_ptr) (argc : Nat) (argv : List (Option String)) (st : σ) : Int × σ :=
  match decide (argc = 2), argv_at argv 1 with
  | true, some a1 =>
    let id := get_id cfg L a1
    let r := L.locking_show shell id st
    if r.1 ≠ 0 then
      (r.1, Z.shell_error shell "Error getting lock details: %d" [.d r.1] r.2)
    else
      r
  | _, _ => (-EINVAL, Z.shell_error shell "Unexpected parameters" [] st)

/-- The function `ats_give_cmd`. -/
def ats_give_cmd {σ : Type} (cfg : Config) (Z : zephyr σ) (L : locking_h σ)
    (shell : shell_ptr) (argc : Nat) (argv : List (Option String)) (st : σ) : Int × σ :=
  match decide (argc = 2), argv_at argv 1 with
  | true, some a1 =>
    let id := get_id cfg L a1
    let r := L.locking_give id st
    if r.1 = 0 then
      (0, Z.shell_print shell "Lock %d (%s) given" [.d id, .s (L.locking_get_name id)] r.2)
    else
      (0, Z.shell_error shell "Lock %d (%s) give failed: %d"
        [.d id, .s (L.locking_get_name id), .d r.1] r.2)
  | _, _ => (-EINVAL, Z.shell_error shell "Unexpected parameters" [] st)

/-- The part of `ats_take_cmd` from the call of `locking_take` on. -/
def ats_take_cmd_take {σ : Type} (Z : zephyr σ) (L : locking_h σ)
    (shell : shell_ptr) (id : locking_id_t) (wait_time : Nat) (st : σ) : Int × σ :=
  let r := L.locking_take id (Z.K_SECONDS wait_time) st
  if r.1 = 0 then
    (0, Z.shell_print shell "Lock %d (%s) taken" [.d id, .s (L.locking_get_name id)] r.2)
  else
    (0, Z.shell_error shell "Lock %d (%s) take failed: %d"
      [.d id, .s (L.locking_get_name id), .d r.1] r.2)

/-- The function `ats_take_cmd`; `wait_time` is a `uint32_t`. -/
def ats_take_cmd {σ : Type} (cfg : Config) (Z : zephyr σ) (L : locking_h σ)
    (shell : shell_ptr) (argc : Nat) (argv : List (Option String)) (st : σ) : Int × σ :=
  match decide (argc = 2 ∨ argc = 3), argv_at argv 1 with
  | true, some a1 =>
    let id := get_id cfg L a1
    if argc = 3 then
      match argv_at argv 2 with
      | none => (-EINVAL, Z.shell_error shell "Unexpected parameters" [] st)
      | some a2 => ats_take_cmd_take Z L shell id (strtoul cfg a2 0 % 2 ^ 32) st
    else
      ats_take_cmd_take Z L shell id DEFAULT_WAIT_TIME_SECONDS st
  | _, _ => (-EINVAL, Z.shell_error shell "Unexpected parameters" [] st)

/-- The function `ats_reset_cmd`. -/
def ats_reset_cmd {σ : Type} (Z : zephyr σ) (L : locking_h σ) (shell : shell_ptr)
    (st : σ) : Int × σ :=
  (0, Z.shell_print shell "Lock reset complete" [] (L.locking_table_reset st))

/-! ## A reference system: reentrant mutexes, counting semaphores, one calling thread -/

/-- The fields `owner` and `lock_count` of a `struct k_mutex`. -/
structure k_mutex where
  owner : Option k_thread
  lock_count : Nat
  deriving DecidableEq, Repr

/-- The fields `count` and `limit` of a `struct k_sem`. -/
structure k_sem where
  count : Nat
  limit : Nat
  deriving DecidableEq, Repr

/-- A call received by an output sink. -/
inductive out_line where
  | log (fmt : String) (args : List fmt_arg)
  | print (shell : shell_ptr) (fmt : String) (args : List fmt_arg)
  | error (shell : shell_ptr) (fmt : String) (args : List fmt_arg)
  deriving DecidableEq, Repr

/-- State of the reference system: the calling thread, the mutex and the semaphore at each
address, and the calls the output sinks have received, oldest first. -/
structure ref_state where
  current : k_thread
  mutex : kobj_ptr → k_mutex
  sem : kobj_ptr → k_sem
  out : List out_line

/-- The mutex store with the mutex at `p` replaced. -/
def set_mutex (f : kobj_ptr → k_mutex) (p : kobj_ptr) (m : k_mutex) : kobj_ptr → k_mutex :=
  fun q => if q = p then m else f q

/-- The semaphore store with the semaphore at `p` replaced. -/
def set_sem (f : kobj_ptr → k_sem) (p : kobj_ptr) (m : k_sem) : kobj_ptr → k_sem :=
  fun q => if q = p then m else f q

/-- Modelled from the spec: the kernel's mutex lock is an external collaborator.  "Recursive
acquisition by the same thread is permitted and increments an internal hold count": a mutex
that is free or owned by the caller is taken at once.  A mutex owned by another thread is
never released while the single calling thread waits, so the call fails, with `-EBUSY` for a
zero timeout and `-EAGAIN` when the timeout expires. -/
def ref_k_mutex_lock (p : kobj_ptr) (wait_time : k_timeout_t) (st : ref_state) :
    Int × ref_state :=
  let m := st.mutex p
  if m.lock_count = 0 ∨ m.owner = some st.current then
    (0, { st with
      mutex := set_mutex st.mutex p { owner := some st.current, lock_count := m.lock_count + 1 } })
  else if wait_time = 0 then (-EBUSY, st)
  else (-EAGAIN, st)

/-- Modelled from the spec: the kernel's mutex unlock "releases one level of ownership".
An unowned mutex gives `-EINVAL`, a mutex owned by another thread `-EPERM`; the last level
leaves the mutex without owner and with count 0. -/
def ref_k_mutex_unlock (p : kobj_ptr) (st : ref_state) : Int × ref_state :=
  let m := st.mutex p
  match m.owner with
  | none => (-EINVAL, st)
  | some o =>
    if o ≠ st.current then (-EPERM, st)
    else if m.lock_count > 1 then
      (0, { st with mutex := set_mutex st.mutex p { m with lock_count := m.lock_count - 1 } })
    else
      (0, { st with mutex := set_mutex st.mutex p { owner := none, lock_count := 0 } })

/-- Modelled from the spec: the kernel's semaphore take "blocks up to `timeout` waiting for
an available unit"; with a single calling thread no unit arrives while it waits. -/
def ref_k_sem_take (p : kobj_ptr) (wait_time : k_timeout_t) (st : ref_state) :
    Int × ref_state :=
  let m := st.sem p
  if m.count > 0 then
    (0, { st with sem := set_sem st.sem p { m with count := m.count - 1 } })
  else if wait_time = 0 then (-EBUSY, st)
  else (-EAGAIN, st)

/-- Modelled from the spec: the kernel's semaphore give "increments the available count
(up to its configured limit". -/
def ref_k_sem_give (p : kobj_ptr) (st : ref_state) : ref_state :=
  let m := st.sem p
  if m.count < m.limit then
    { st with sem := set_sem st.sem p { m with count := m.count + 1 } }
  else st

/-- The reference system as the module's collaborators.  A tick is a millisecond, and
`"%p"` prints the address of a thread in hexadecimal. -/
def ref_zephyr : zephyr ref_state :=
  { k_mutex_init := fun p st =>
      { st with mutex := set_mutex st.mutex p { owner := none, lock_count := 0 } }
    k_mutex_lock := ref_k_mutex_lock
    k_mutex_unlock := ref_k_mutex_unlock
    k_sem_take := ref_k_sem_take
    k_sem_give := ref_k_sem_give
    k_sem_count_get := fun p st => (st.sem p).count
    mutex_owner := fun p st => (st.mutex p).owner
    mutex_lock_count := fun p st => (st.mutex p).lock_count
    K_SECONDS := fun n => n * 1000
    snprintk_p := fun size t =>
      String.mk (("0x".data ++ Nat.toDigits 16 t.addr).take (size - 1))
    LOG_INF := fun fmt args st => { st with out := st.out ++ [out_line.log fmt args] }
    shell_print := fun sh fmt args st =>
      { st with out := st.out ++ [out_line.print sh fmt args] }
    shell_error := fun sh fmt args st =>
      { st with out := st.out ++ [out_line.error sh fmt args] } }

/-- A mutex of the reference system is uncontended for the calling thread: it is free, or
the calling thread holds it. -/
def uncontended (st : ref_state) (p : kobj_ptr) : Prop :=
  ((st.mutex p).owner = none ∧ (st.mutex p).lock_count = 0) ∨
  ((st.mutex p).owner = some st.current ∧ 1 ≤ (st.mutex p).lock_count)

instance (st : ref_state) (p : kobj_ptr) : Decidable (uncontended st p) := by
  unfold uncontended; infer_instance

/-- A start state of the reference system: thread `main`, every object zeroed. -/
def ref_boot : ref_state :=
  { current := { addr := 536870912, name := some "main" }
    mutex := fun _ => { owner := none, lock_count := 0 }
    sem := fun _ => { count := 0, limit := 0 }
    out := [] }

/-- A build with every option of the module enabled, for a 32-bit target. -/
def cfg_full : Config :=
  { ATTR_STRING_NAME := true, LOCKING_STRING_NAME := true, LOCKING_VERBOSE_DEBUGGING := true,
    THREAD_NAME := true, THREAD_MAX_NAME_LEN := some 32, LOCKING_SHOW_FMT := "[%03u] %-20s",
    ULONG_BITS := 32 }

/-- A build with names in `locking.c` but without `CONFIG_ATTR_STRING_NAME`. -/
def cfg_names_only : Config :=
  { ATTR_STRING_NAME := false, LOCKING_STRING_NAME := true, LOCKING_VERBOSE_DEBUGGING := false,
    THREAD_NAME := false, THREAD_MAX_NAME_LEN := none, LOCKING_SHOW_FMT := "[%03u] %-20s",
    ULONG_BITS := 32 }

/-- A build without any option. -/
def cfg_plain : Config :=
  { ATTR_STRING_NAME := false, LOCKING_STRING_NAME := false, LOCKING_VERBOSE_DEBUGGING := false,
    THREAD_NAME := false, THREAD_MAX_NAME_LEN := none, LOCKING_SHOW_FMT := "[%03u] %-20s",
    ULONG_BITS := 32 }

/-! ## Predicates of the statements -/

/-- An id is invalid for a registry: it exceeds `LOCKING_TABLE_MAX_ID`, or its slot of
`LOCKING_MAP` holds `NULL`. -/
def invalid_id (tbl : locking_table) (id : Nat) : Prop :=
  id > tbl.LOCKING_TABLE_MAX_ID ∨ tbl.LOCKING_MAP[id]? = some none

instance (tbl : locking_table) (id : Nat) : Decidable (invalid_id tbl id) := by
  unfold invalid_id; infer_instance

/-- A call received by a collaborator that changes the system. -/
inductive sys_call where
  | k_mutex_init (p : kobj_ptr)
  | k_mutex_lock (p : kobj_ptr) (wait_time : k_timeout_t)
  | k_mutex_unlock (p : kobj_ptr)
  | k_sem_take (p : kobj_ptr) (wait_time : k_timeout_t)
  | k_sem_give (p : kobj_ptr)
  | LOG_INF (fmt : String) (args : List fmt_arg)
  | shell_print (shell : shell_ptr) (fmt : String) (args : List fmt_arg)
  | shell_error (shell : shell_ptr) (fmt : String) (args : List fmt_arg)
  deriving DecidableEq, Repr

/-- Collaborators that only record the calls they receive, oldest first; every primitive
that returns a status returns `ret`. -/
def recorder (ret : Int) : zephyr (List sys_call) :=
  { k_mutex_init := fun p st => st ++ [sys_call.k_mutex_init p]
    k_mutex_lock := fun p t st => (ret, st ++ [sys_call.k_mutex_lock p t])
    k_mutex_unlock := fun p st => (ret, st ++ [sys_call.k_mutex_unlock p])
    k_sem_take := fun p t st => (ret, st ++ [sys_call.k_sem_take p t])
    k_sem_give := fun p st => st ++ [sys_call.k_sem_give p]
    k_sem_count_get := fun _ _ => 0
    mutex_owner := fun _ _ => none
    mutex_lock_count := fun _ _ => 0
    K_SECONDS := fun n => n
    snprintk_p := fun _ _ => ""
    LOG_INF := fun fmt args st => st ++ [sys_call.LOG_INF fmt args]
    shell_print := fun sh fmt args st => st ++ [sys_call.shell_print sh fmt args]
    shell_error := fun sh fmt args st => st ++ [sys_call.shell_error sh fmt args] }

/-- The registry invariant: every slot of `LOCKING_MAP` that is not `NULL` points to an
element of `LOCKING_TABLE` whose `id` is the slot's index, and no two slots point to the
same element. -/
def registry_invariant (tbl : locking_table) : Prop :=
  (∀ (i : Nat) (k : entry_ptr), tbl.LOCKING_MAP[i]? = some (some k) →
    ∃ e, tbl.LOCKING_TABLE[k]? = some e ∧ e.id = i) ∧
  (∀ (i j : Nat) (k : entry_ptr), tbl.LOCKING_MAP[i]? = some (some k) →
    tbl.LOCKING_MAP[j]? = some (some k) → i = j)

/-- A call received by a function of `locking_h`, or by an output sink of the shell. -/
inductive shell_call where
  | locking_take (id : locking_id_t) (wait_time : k_timeout_t)
  | locking_give (id : locking_id_t)
  | locking_show (shell : shell_ptr) (id : locking_id_t)
  | locking_show_all (shell : shell_ptr)
  | locking_table_reset
  | shell_print (shell : shell_ptr) (fmt : String) (args : List fmt_arg)
  | shell_error (shell : shell_ptr) (fmt : String) (args : List fmt_arg)
  deriving DecidableEq, Repr

/-- An implementation of `locking_h` that only records the calls it receives, oldest first;
every function that returns a status returns `ret`, every name is `"?"` and every name
resolves to id 0. -/
def api_recorder (ret : Int) : locking_h (List shell_call) :=
  { locking_get_name := fun _ => "?"
    locking_get_id := fun _ => 0
    locking_take := fun id t st => (ret, st ++ [shell_call.locking_take id t])
    locking_give := fun id st => (ret, st ++ [shell_call.locking_give id])
    locking_show := fun sh id st => (ret, st ++ [shell_call.locking_show sh id])
    locking_show_all := fun sh st => (0, st ++ [shell_call.locking_show_all sh])
    locking_table_reset := fun st => st ++ [shell_call.locking_table_reset] }

/-- Output sinks that only record the calls they receive, for use with `api_recorder`; the
kernel primitives are not called through `locking_h` and record nothing. -/
def sink_recorder : zephyr (List shell_call) :=
  { k_mutex_init := fun _ st => st
    k_mutex_lock := fun _ _ st => (0, st)
    k_mutex_unlock := fun _ st => (0, st)
    k_sem_take := fun _ _ st => (0, st)
    k_sem_give := fun _ st => st
    k_sem_count_get := fun _ _ => 0
    mutex_owner := fun _ _ => none
    mutex_lock_count := fun _ _ => 0
    K_SECONDS := fun n => n * 1000
    snprintk_p := fun _ _ => ""
    LOG_INF := fun _ _ st => st
    shell_print := fun sh fmt args st => st ++ [shell_call.shell_print sh fmt args]
    shell_error := fun sh fmt args st => st ++ [shell_call.shell_error sh fmt args] }

/-! ## The shell's tokens, in the words of the specification -/

/-- The value of a character as a digit of base 8, 10 or 16: `0-9`, and `a-f` or `A-F` for
10 to 15; `none` when the character is no digit of the base. -/
def spec_digit (base : Nat) (c : Char) : Option Nat :=
  let v : Option Nat :=
    if 48 ≤ c.toNat ∧ c.toNat ≤ 57 then some (c.toNat - 48)
    else if 97 ≤ c.toNat ∧ c.toNat ≤ 102 then some (c.toNat - 97 + 10)
    else if 65 ≤ c.toNat ∧ c.toNat ≤ 70 then some (c.toNat - 65 + 10)
    else none
  v.filter (fun d => decide (d < base))

/-- The digits of a token up to the first character that is no digit of the base. -/
def spec_digits (base : Nat) : List Char → List Nat
  | [] => []
  | c :: s =>
    match spec_digit base c with
    | some d => d :: spec_digits base s
    | none => []

/-- The number that a list of digits denotes in a base, most significant digit first. -/
def spec_number (base : Nat) (ds : List Nat) : Nat :=
  ds.foldl (fun acc d => acc * base + d) 0

/-- The value of a token "parsed as a base-flexible integer": hexadecimal after a `0x` or
`0X`, octal after a leading `0`, else decimal, up to the first character that is no digit. -/
def token_value (str : String) : Nat :=
  if str.data.take 2 = ['0', 'x'] ∨ str.data.take 2 = ['0', 'X'] then
    spec_number 16 (spec_digits 16 (str.data.drop 2))
  else if str.data.take 1 = ['0'] then
    spec_number 8 (spec_digits 8 (str.data.drop 1))
  else
    spec_number 10 (spec_digits 10 str.data)

/-- A token holds no number: after white space and one sign, it does not go on with a
decimal digit. -/
def non_numeric (str : String) : Prop :=
  let s0 := str.data.dropWhile isspace
  let s1 := if s0.head? = some '-' ∨ s0.head? = some '+' then s0.tail else s0
  isdigit (s1.headD (Char.ofNat 0)) = false

instance (str : String) : Decidable (non_numeric str) := by
  unfold non_numeric; infer_instance

/-! ## Dispatch by type -/

/-- The system after the call `show(entry)` that ends `locking_take` and `locking_give` in
the verbose build (one log line); the system itself in the other builds. -/
def verbose_show {σ : Type} (cfg : Config) (Z : zephyr σ) (tbl : locking_table)
    (entry : entry_ptr) (st : σ) : σ :=
  if cfg.LOCKING_VERBOSE_DEBUGGING then (show_verbose cfg Z tbl entry st).2 else st

/-- The recorded call is a call of a mutex or semaphore primitive, not of an output sink. -/
def is_kernel_call : sys_call → Bool
  | sys_call.k_mutex_init _ => true
  | sys_call.k_mutex_lock _ _ => true
  | sys_call.k_mutex_unlock _ => true
  | sys_call.k_sem_take _ _ => true
  | sys_call.k_sem_give _ => true
  | sys_call.LOG_INF _ _ => false
  | sys_call.shell_print _ _ _ => false
  | sys_call.shell_error _ _ _ => false

/-- The calls of mutex and semaphore primitives among the recorded calls. -/
def kernel_calls (calls : List sys_call) : List sys_call :=
  calls.filter is_kernel_call

/-- A registry for examples, with one entry of each type: a mutex at id 0 and address 0,
a semaphore (count 0, limit 1) at id 1 and address 1, an entry of type
`LOCKING_TYPE_UNKNOWN` at id 2 and one of type `LOCKING_TYPE_ANY` at id 3. -/
def four_types : locking_table :=
  { LOCKING_TABLE_SIZE := 4
    LOCKING_TABLE_MAX_ID := 3
    LOCKING_TABLE :=
      [ { id := 0, name := "m", pData := 0, type := LOCKING_TYPE_MUTEX,
          count := 0, limit := 0, current := 0 },
        { id := 1, name := "s", pData := 1, type := LOCKING_TYPE_SEMAPHORE,
          count := 0, limit := 1, current := 0 },
        { id := 2, name := "u", pData := 2, type := LOCKING_TYPE_UNKNOWN,
          count := 0, limit := 0, current := 0 },
        { id := 3, name := "a", pData := 3, type := LOCKING_TYPE_ANY,
          count := 0, limit := 0, current := 0 } ]
    array_size := rfl
    LOCKING_MAP := [ some 0, some 1, some 2, some 3 ]
    build_assert := rfl }

/-! # Theorems -/

/-! ## The registry: lookup and validity -/

theorem locking_map_eq_getElem? (tbl : locking_table) (id : Nat)
    (h : id ≤ tbl.LOCKING_TABLE_MAX_ID) :
    tbl.LOCKING_MAP[id]? = some (locking_map tbl id) := by
  have hlen := tbl.build_assert
  have hlt : id < tbl.LOCKING_MAP.length := by omega
  unfold locking_map
  rw [dif_neg (Nat.not_lt.mpr h), List.getElem?_eq_getElem hlt]
  rfl

theorem locking_map_of_gt (tbl : locking_table) (id : Nat)
    (h : id > tbl.LOCKING_TABLE_MAX_ID) : locking_map tbl id = none := by
  unfold locking_map
  rw [dif_pos h]

theorem locking_map_eq_none_iff (tbl : locking_table) (id : Nat) :
    locking_map tbl id = none ↔ invalid_id tbl id := by
  unfold invalid_id
  by_cases h : id > tbl.LOCKING_TABLE_MAX_ID
  · simp [h, locking_map_of_gt tbl id h]
  · have hle : id ≤ tbl.LOCKING_TABLE_MAX_ID := Nat.le_of_not_gt h
    rw [locking_map_eq_getElem? tbl id hle]
    simp [h]

theorem MG100_locking_map (cfg : Config) (id : Nat) :
    locking_map (MG100 cfg) id = if id = 0 then some 0 else none := by
  by_cases h : id = 0
  · subst h; rfl
  · rw [if_neg h]
    apply locking_map_of_gt
    show id > 0
    omega

/-- C1: for every registry and every invalid id (above `LOCKING_TABLE_MAX_ID`, or mapped to
`NULL`) `locking_map` returns `NULL`, `locking_valid_id` is false, `locking_get_type` is
`LOCKING_TYPE_UNKNOWN` and `locking_get_name` is the empty string; in the MG100 registry the
invalid ids are exactly the ids other than 0, and id 0 is valid and of type
`LOCKING_TYPE_MUTEX`. -/
theorem invalid_id_queries (cfg : Config) :
    (∀ (tbl : locking_table) (id : Nat), invalid_id tbl id →
      locking_map tbl id = none ∧ locking_valid_id tbl id = false ∧
      locking_get_type tbl id = LOCKING_TYPE_UNKNOWN ∧ locking_get_name cfg tbl id = "") ∧
    (∀ id : Nat, invalid_id (MG100 cfg) id ↔ id ≠ 0) ∧
    locking_valid_id (MG100 cfg) 0 = true ∧
    locking_get_type (MG100 cfg) 0 = LOCKING_TYPE_MUTEX := by
  refine ⟨?_, ?_, rfl, rfl⟩
  · intro tbl id h
    have hm : locking_map tbl id = none := (locking_map_eq_none_iff tbl id).mpr h
    refine ⟨hm, ?_, ?_, ?_⟩
    · simp [locking_valid_id, hm]
    · simp [locking_get_type, hm]
    · simp [locking_get_name, hm, EMPTY_STRING]
  · intro id
    rw [← locking_map_eq_none_iff, MG100_locking_map]
    by_cases h : id = 0 <;> simp [h]

theorem invalid_id_queries_witness :
    invalid_id (MG100 cfg_full) 1 ∧
    locking_map (MG100 cfg_full) 1 = none ∧ locking_valid_id (MG100 cfg_full) 1 = false ∧
    locking_get_type (MG100 cfg_full) 1 = LOCKING_TYPE_UNKNOWN ∧
    locking_get_name cfg_full (MG100 cfg_full) 1 = "" :=
  ⟨by decide, (invalid_id_queries cfg_full).1 (MG100 cfg_full) 1 (by decide)⟩

/-! ## Take and give -/

theorem locking_take_of_none {σ : Type} (cfg : Config) (Z : zephyr σ) (tbl : locking_table)
    (id : Nat) (wait_time : k_timeout_t) (st : σ) (h : locking_map tbl id = none) :
    locking_take cfg Z tbl id wait_time st = (-EINVAL, st) := by
  simp [locking_take, h]

theorem locking_give_of_none {σ : Type} (cfg : Config) (Z : zephyr σ) (tbl : locking_table)
    (id : Nat) (st : σ) (h : locking_map tbl id = none) :
    locking_give cfg Z tbl id st = (-EINVAL, st) := by
  simp [locking_give, h]

/-- C2: when the id does not resolve to a registry entry, `locking_take` (for any timeout)
and `locking_give` return `-EINVAL` and leave the system as it was, whatever the
collaborators are; collaborators that record their calls record none; id 1 of the MG100
registry is such an id. -/
theorem take_give_unresolved_id (cfg : Config) :
    (∀ (σ : Type) (Z : zephyr σ) (tbl : locking_table) (id : Nat) (wait_time : k_timeout_t)
        (st : σ), locking_map tbl id = none →
      locking_take cfg Z tbl id wait_time st = (-EINVAL, st) ∧
      locking_give cfg Z tbl id st = (-EINVAL, st)) ∧
    (∀ (tbl : locking_table) (id : Nat) (wait_time : k_timeout_t) (ret : Int),
      locking_map tbl id = none →
      locking_take cfg (recorder ret) tbl id wait_time [] = (-EINVAL, []) ∧
      locking_give cfg (recorder ret) tbl id [] = (-EINVAL, [])) ∧
    locking_map (MG100 cfg) 1 = none := by
  refine ⟨?_, ?_, rfl⟩
  · intro σ Z tbl id wait_time st h
    exact ⟨locking_take_of_none cfg Z tbl id wait_time st h,
      locking_give_of_none cfg Z tbl id st h⟩
  · intro tbl id wait_time ret h
    exact ⟨locking_take_of_none cfg _ tbl id wait_time [] h,
      locking_give_of_none cfg _ tbl id [] h⟩

theorem take_give_unresolved_id_witness :
    locking_map (MG100 cfg_full) 1 = none ∧
    locking_take cfg_full ref_zephyr (MG100 cfg_full) 1 3000 ref_boot = (-EINVAL, ref_boot) ∧
    locking_give cfg_full ref_zephyr (MG100 cfg_full) 1 ref_boot = (-EINVAL, ref_boot) :=
  ⟨by decide,
    (take_give_unresolved_id cfg_full).1 ref_state ref_zephyr (MG100 cfg_full) 1 3000 ref_boot
      (by decide)⟩

theorem deref_MG100_type (cfg : Config) :
    (deref (MG100 cfg) 0).type = LOCKING_TYPE_MUTEX := rfl

theorem deref_MG100_pData (cfg : Config) : (deref (MG100 cfg) 0).pData = adc := by
  show (LOCK cfg "adc" adc).2 = adc
  unfold LOCK
  split <;> rfl

theorem MG100_locking_map_zero (cfg : Config) : locking_map (MG100 cfg) 0 = some 0 := rfl

/-- On a mutex entry `locking_take` is `k_mutex_lock`, followed in the verbose build by a
log line. -/
theorem locking_take_mutex {σ : Type} (cfg : Config) (Z : zephyr σ) (tbl : locking_table)
    (id : Nat) (entry : entry_ptr) (wait_time : k_timeout_t) (st : σ)
    (hm : locking_map tbl id = some entry)
    (ht : (deref tbl entry).type = LOCKING_TYPE_MUTEX) :
    locking_take cfg Z tbl id wait_time st =
      if cfg.LOCKING_VERBOSE_DEBUGGING then
        ((Z.k_mutex_lock (deref tbl entry).pData wait_time st).1,
          (show_verbose cfg Z tbl entry (Z.k_mutex_lock (deref tbl entry).pData wait_time st).2).2)
      else Z.k_mutex_lock (deref tbl entry).pData wait_time st := by
  simp [locking_take, hm, ht]

/-- On a mutex entry `locking_give` is `k_mutex_unlock`, followed in the verbose build by a
log line. -/
theorem locking_give_mutex {σ : Type} (cfg : Config) (Z : zephyr σ) (tbl : locking_table)
    (id : Nat) (entry : entry_ptr) (st : σ)
    (hm : locking_map tbl id = some entry)
    (ht : (deref tbl entry).type = LOCKING_TYPE_MUTEX) :
    locking_give cfg Z tbl id st =
      if cfg.LOCKING_VERBOSE_DEBUGGING then
        ((Z.k_mutex_unlock (deref tbl entry).pData st).1,
          (show_verbose cfg Z tbl entry (Z.k_mutex_unlock (deref tbl entry).pData st).2).2)
      else Z.k_mutex_unlock (deref tbl entry).pData st := by
  simp [locking_give, hm, ht]

/-- The part of the reference state that the primitives act on. -/
theorem ref_show_verbose (cfg : Config) (tbl : locking_table) (entry : entry_ptr)
    (st : ref_state) :
    (show_verbose cfg ref_zephyr tbl entry st).2.mutex = st.mutex ∧
    (show_verbose cfg ref_zephyr tbl entry st).2.sem = st.sem ∧
    (show_verbose cfg ref_zephyr tbl entry st).2.current = st.current :=
  ⟨rfl, rfl, rfl⟩

theorem ref_take_mutex (cfg : Config) (tbl : locking_table) (id : Nat) (entry : entry_ptr)
    (wait_time : k_timeout_t) (st : ref_state)
    (hm : locking_map tbl id = some entry)
    (ht : (deref tbl entry).type = LOCKING_TYPE_MUTEX)
    (hu : uncontended st (deref tbl entry).pData) :
    (locking_take cfg ref_zephyr tbl id wait_time st).1 = 0 ∧
    (locking_take cfg ref_zephyr tbl id wait_time st).2.current = st.current ∧
    (locking_take cfg ref_zephyr tbl id wait_time st).2.sem = st.sem ∧
    (locking_take cfg ref_zephyr tbl id wait_time st).2.mutex =
      set_mutex st.mutex (deref tbl entry).pData
        { owner := some st.current,
          lock_count := (st.mutex (deref tbl entry).pData).lock_count + 1 } := by
  rw [locking_take_mutex cfg ref_zephyr tbl id entry wait_time st hm ht]
  have hc : (st.mutex (deref tbl entry).pData).lock_count = 0 ∨
      (st.mutex (deref tbl entry).pData).owner = some st.current := by
    rcases hu with ⟨_, h⟩ | ⟨h, _⟩
    · exact Or.inl h
    · exact Or.inr h
  have hk : ref_zephyr.k_mutex_lock (deref tbl entry).pData wait_time st =
      (0, { st with mutex := (set_mutex st.mutex (deref tbl entry).pData
        { owner := some st.current,
          lock_count := (st.mutex (deref tbl entry).pData).lock_count + 1 }) }) := by
    show ref_k_mutex_lock _ _ _ = _
    unfold ref_k_mutex_lock
    simp only [if_pos hc]
  rw [hk]
  split <;> exact ⟨rfl, rfl, rfl, rfl⟩

theorem ref_give_mutex (cfg : Config) (tbl : locking_table) (id : Nat) (entry : entry_ptr)
    (st : ref_state)
    (hm : locking_map tbl id = some entry)
    (ht : (deref tbl entry).type = LOCKING_TYPE_MUTEX)
    (ho : (st.mutex (deref tbl entry).pData).owner = some st.current) :
    (locking_give cfg ref_zephyr tbl id st).1 = 0 ∧
    (locking_give cfg ref_zephyr tbl id st).2.current = st.current ∧
    (locking_give cfg ref_zephyr tbl id st).2.sem = st.sem ∧
    (locking_give cfg ref_zephyr tbl id st).2.mutex =
      set_mutex st.mutex (deref tbl entry).pData
        (if (st.mutex (deref tbl entry).pData).lock_count > 1 then
          { owner := some st.current,
            lock_count := (st.mutex (deref tbl entry).pData).lock_count - 1 }
        else { owner := none, lock_count := 0 }) := by
  rw [locking_give_mutex cfg ref_zephyr tbl id entry st hm ht]
  have hk : ref_zephyr.k_mutex_unlock (deref tbl entry).pData st =
      (0, { st with mutex := (set_mutex st.mutex (deref tbl entry).pData
        (if (st.mutex (deref tbl entry).pData).lock_count > 1 then
          { owner := some st.current,
            lock_count := (st.mutex (deref tbl entry).pData).lock_count - 1 }
        else { owner := none, lock_count := 0 })) }) := by
    show ref_k_mutex_unlock _ _ = _
    unfold ref_k_mutex_unlock
    simp only [ho]
    by_cases hc : (st.mutex (deref tbl entry).pData).lock_count > 1
    · simp [hc, ← ho]
    · simp [hc]
  rw [hk]
  split <;> exact ⟨rfl, rfl, rfl, rfl⟩

theorem set_mutex_same (f : kobj_ptr → k_mutex) (p : kobj_ptr) (m : k_mutex) :
    set_mutex f p m p = m := by
  simp [set_mutex]

theorem set_mutex_set_mutex (f : kobj_ptr → k_mutex) (p : kobj_ptr) (m m' : k_mutex) :
    set_mutex (set_mutex f p m) p m' = set_mutex f p m' := by
  funext q
  by_cases h : q = p <;> simp [set_mutex, h]

theorem set_mutex_self (f : kobj_ptr → k_mutex) (p : kobj_ptr) (m : k_mutex) (h : f p = m) :
    set_mutex f p m = f := by
  funext q
  by_cases hq : q = p
  · subst hq; simp [set_mutex, h]
  · simp [set_mutex, hq]

/-- Take then give on an uncontended mutex entry of the reference system. -/
theorem ref_take_give_mutex (cfg : Config) (tbl : locking_table) (id : Nat)
    (entry : entry_ptr) (wait_time : k_timeout_t) (st : ref_state)
    (hm : locking_map tbl id = some entry)
    (ht : (deref tbl entry).type = LOCKING_TYPE_MUTEX)
    (hu : uncontended st (deref tbl entry).pData) :
    (locking_take cfg ref_zephyr tbl id wait_time st).1 = 0 ∧
    (locking_give cfg ref_zephyr tbl id
      (locking_take cfg ref_zephyr tbl id wait_time st).2).1 = 0 ∧
    (locking_give cfg ref_zephyr tbl id
      (locking_take cfg ref_zephyr tbl id wait_time st).2).2.mutex = st.mutex ∧
    (locking_give cfg ref_zephyr tbl id
      (locking_take cfg ref_zephyr tbl id wait_time st).2).2.sem = st.sem ∧
    (locking_give cfg ref_zephyr tbl id
      (locking_take cfg ref_zephyr tbl id wait_time st).2).2.current = st.current := by
  obtain ⟨t1, tc, ts, tm⟩ := ref_take_mutex cfg tbl id entry wait_time st hm ht hu
  have ho : ((locking_take cfg ref_zephyr tbl id wait_time st).2.mutex
      (deref tbl entry).pData).owner =
      some (locking_take cfg ref_zephyr tbl id wait_time st).2.current := by
    rw [tm, tc, set_mutex_same]
  obtain ⟨g1, gc, gs, gm⟩ := ref_give_mutex cfg tbl id entry _ hm ht ho
  refine ⟨t1, g1, ?_, gs.trans ts, gc.trans tc⟩
  rw [gm, tm, tc, set_mutex_set_mutex, set_mutex_same]
  apply set_mutex_self
  rcases hu with ⟨h1, h2⟩ | ⟨h1, h2⟩
  · have : st.mutex (deref tbl entry).pData = { owner := none, lock_count := 0 } := by
      cases hx : st.mutex (deref tbl entry).pData
      rw [hx] at h1 h2
      simp at h1 h2
      simp [h1, h2]
    simp [this]
  · have hgt : (st.mutex (deref tbl entry).pData).lock_count + 1 > 1 := by omega
    rw [if_pos hgt]
    cases hx : st.mutex (deref tbl entry).pData
    rw [hx] at h1 h2
    simp at h1 h2
    simp [h1]

/-- C3: on the reference system, once `locking_init` has run, `locking_take(0, K_SECONDS(3))`
returns 0, a second `locking_take(0, K_SECONDS(0))` by the same thread returns 0 and leaves
the mutex `adc` held by the thread with count 2, and two calls of `locking_give(0)` each
return 0, the first leaving count 1 and the second leaving the mutex without owner and with
count 0.  In general, for every registry and every id of a mutex entry whose mutex is
uncontended (free, or held by the caller), `locking_take` followed by `locking_give` both
return 0 and the mutexes, the semaphores and the calling thread are as before. -/
theorem mutex_take_give_reference (cfg : Config) :
    (∀ s0 : ref_state,
      let s := (locking_init ref_zephyr s0).2
      let r1 := locking_take cfg ref_zephyr (MG100 cfg) 0 (ref_zephyr.K_SECONDS 3) s
      let r2 := locking_take cfg ref_zephyr (MG100 cfg) 0 (ref_zephyr.K_SECONDS 0) r1.2
      let r3 := locking_give cfg ref_zephyr (MG100 cfg) 0 r2.2
      let r4 := locking_give cfg ref_zephyr (MG100 cfg) 0 r3.2
      s.mutex adc = { owner := none, lock_count := 0 } ∧
      r1.1 = 0 ∧ r1.2.mutex adc = { owner := some s0.current, lock_count := 1 } ∧
      r2.1 = 0 ∧ r2.2.mutex adc = { owner := some s0.current, lock_count := 2 } ∧
      r3.1 = 0 ∧ r3.2.mutex adc = { owner := some s0.current, lock_count := 1 } ∧
      r4.1 = 0 ∧ r4.2.mutex adc = { owner := none, lock_count := 0 } ∧
      r4.2.mutex = s.mutex) ∧
    (∀ (tbl : locking_table) (id : Nat) (entry : entry_ptr) (wait_time : k_timeout_t)
        (st : ref_state),
      locking_map tbl id = some entry →
      (deref tbl entry).type = LOCKING_TYPE_MUTEX →
      uncontended st (deref tbl entry).pData →
      let r1 := locking_take cfg ref_zephyr tbl id wait_time st
      let r2 := locking_give cfg ref_zephyr tbl id r1.2
      r1.1 = 0 ∧ r2.1 = 0 ∧ r2.2.mutex = st.mutex ∧ r2.2.sem = st.sem ∧
      r2.2.current = st.current) := by
  constructor
  · intro s0 s r1 r2 r3 r4
    have hm := MG100_locking_map_zero cfg
    have ht := deref_MG100_type cfg
    have hp := deref_MG100_pData cfg
    have hs : s.mutex adc = { owner := none, lock_count := 0 } := by
      exact set_mutex_same s0.mutex adc _
    have hsc : s.current = s0.current := rfl
    have hu1 : uncontended s (deref (MG100 cfg) 0).pData := by
      rw [hp]; left; rw [hs]; exact ⟨rfl, rfl⟩
    obtain ⟨a1, ac, _, am⟩ := ref_take_mutex cfg (MG100 cfg) 0 0 (ref_zephyr.K_SECONDS 3) s hm ht hu1
    rw [hp] at am
    have h1 : r1.2.mutex adc = { owner := some s0.current, lock_count := 1 } := by
      show (locking_take cfg ref_zephyr (MG100 cfg) 0 (ref_zephyr.K_SECONDS 3) s).2.mutex adc = _
      rw [am, set_mutex_same, hs, hsc]
    have h1c : r1.2.current = s0.current := ac.trans hsc
    have hu2 : uncontended r1.2 (deref (MG100 cfg) 0).pData := by
      rw [hp]; right; rw [h1, h1c]; exact ⟨rfl, Nat.le_refl 1⟩
    obtain ⟨b1, bc, _, bm⟩ := ref_take_mutex cfg (MG100 cfg) 0 0 (ref_zephyr.K_SECONDS 0) r1.2 hm ht hu2
    rw [hp] at bm
    have h2 : r2.2.mutex adc = { owner := some s0.current, lock_count := 2 } := by
      show (locking_take cfg ref_zephyr (MG100 cfg) 0 (ref_zephyr.K_SECONDS 0) r1.2).2.mutex adc = _
      rw [bm, set_mutex_same, h1, h1c]
    have h2c : r2.2.current = s0.current := bc.trans h1c
    have ho3 : (r2.2.mutex (deref (MG100 cfg) 0).pData).owner = some r2.2.current := by
      rw [hp, h2, h2c]
    obtain ⟨c1, cc, _, cm⟩ := ref_give_mutex cfg (MG100 cfg) 0 0 r2.2 hm ht ho3
    rw [hp] at cm
    have h3 : r3.2.mutex adc = { owner := some s0.current, lock_count := 1 } := by
      show (locking_give cfg ref_zephyr (MG100 cfg) 0 r2.2).2.mutex adc = _
      rw [cm, set_mutex_same, h2, h2c]
      rfl
    have h3c : r3.2.current = s0.current := cc.trans h2c
    have ho4 : (r3.2.mutex (deref (MG100 cfg) 0).pData).owner = some r3.2.current := by
      rw [hp, h3, h3c]
    obtain ⟨d1, _, _, dm⟩ := ref_give_mutex cfg (MG100 cfg) 0 0 r3.2 hm ht ho4
    rw [hp] at dm
    have h4 : r4.2.mutex adc = { owner := none, lock_count := 0 } := by
      show (locking_give cfg ref_zephyr (MG100 cfg) 0 r3.2).2.mutex adc = _
      rw [dm, set_mutex_same, h3]
      rfl
    refine ⟨hs, a1, h1, b1, h2, c1, h3, d1, h4, ?_⟩
    show (locking_give cfg ref_zephyr (MG100 cfg) 0 r3.2).2.mutex = _
    rw [dm]
    show set_mutex (locking_give cfg ref_zephyr (MG100 cfg) 0 r2.2).2.mutex adc _ = _
    rw [cm]
    show set_mutex (set_mutex (locking_take cfg ref_zephyr (MG100 cfg) 0
      (ref_zephyr.K_SECONDS 0) r1.2).2.mutex adc _) adc _ = _
    rw [bm]
    show set_mutex (set_mutex (set_mutex (locking_take cfg ref_zephyr (MG100 cfg) 0
      (ref_zephyr.K_SECONDS 3) s).2.mutex adc _) adc _) adc _ = _
    rw [am, set_mutex_set_mutex, set_mutex_set_mutex, set_mutex_set_mutex]
    apply set_mutex_self
    rw [hs]
    rw [h3] at *
    rfl
  · intro tbl id entry wait_time st hm ht hu
    exact ref_take_give_mutex cfg tbl id entry wait_time st hm ht hu

theorem mutex_take_give_reference_witness :
    locking_map (MG100 cfg_full) 0 = some 0 ∧
    (deref (MG100 cfg_full) 0).type = LOCKING_TYPE_MUTEX ∧
    uncontended ref_boot (deref (MG100 cfg_full) 0).pData ∧
    (locking_take cfg_full ref_zephyr (MG100 cfg_full) 0 3000 ref_boot).1 = 0 ∧
    (locking_give cfg_full ref_zephyr (MG100 cfg_full) 0
      (locking_take cfg_full ref_zephyr (MG100 cfg_full) 0 3000 ref_boot).2).1 = 0 ∧
    (locking_give cfg_full ref_zephyr (MG100 cfg_full) 0
      (locking_take cfg_full ref_zephyr (MG100 cfg_full) 0 3000 ref_boot).2).2.mutex =
      ref_boot.mutex ∧
    (locking_give cfg_full ref_zephyr (MG100 cfg_full) 0
      (locking_take cfg_full ref_zephyr (MG100 cfg_full) 0 3000 ref_boot).2).2.sem =
      ref_boot.sem ∧
    (locking_give cfg_full ref_zephyr (MG100 cfg_full) 0
      (locking_take cfg_full ref_zephyr (MG100 cfg_full) 0 3000 ref_boot).2).2.current =
      ref_boot.current :=
  ⟨by decide, by decide, by decide,
    (mutex_take_give_reference cfg_full).2 (MG100 cfg_full) 0 0 3000 ref_boot
      (by decide) (by decide) (by decide)⟩

/-! ## The registry invariant -/

theorem locking_map_some_getElem? (tbl : locking_table) (id : Nat) (entry : entry_ptr)
    (h : locking_map tbl id = some entry) : tbl.LOCKING_MAP[id]? = some (some entry) := by
  by_cases hgt : id > tbl.LOCKING_TABLE_MAX_ID
  · rw [locking_map_of_gt tbl id hgt] at h
    exact absurd h (by simp)
  · rw [locking_map_eq_getElem? tbl id (Nat.le_of_not_gt hgt), h]

theorem deref_of_getElem? (tbl : locking_table) (k : entry_ptr) (e : locking_table_entry)
    (h : tbl.LOCKING_TABLE[k]? = some e) : deref tbl k = e := by
  simp [deref, List.getD, h]

theorem MG100_registry_invariant (cfg : Config) : registry_invariant (MG100 cfg) := by
  have key : ∀ (i : Nat) (k : entry_ptr), (MG100 cfg).LOCKING_MAP[i]? = some (some k) →
      i = 0 ∧ k = 0 := by
    intro i k h
    match i, h with
    | 0, h =>
      have h0 : (MG100 cfg).LOCKING_MAP[0]? = some (some 0) := rfl
      rw [h0] at h
      simp at h
      exact ⟨rfl, h.symm⟩
    | n + 1, h =>
      have h1 : (MG100 cfg).LOCKING_MAP[n + 1]? = none := rfl
      rw [h1] at h
      exact absurd h (by simp)
  constructor
  · intro i k h
    obtain ⟨hi, hk⟩ := key i k h
    subst hi; subst hk
    exact ⟨_, rfl, rfl⟩
  · intro i j k hi hj
    rw [(key i k hi).1, (key j k hj).1]

theorem locking_map_id_of_invariant (tbl : locking_table) (hinv : registry_invariant tbl)
    (id : Nat) (entry : entry_ptr) (h : locking_map tbl id = some entry) :
    ∃ e, tbl.LOCKING_TABLE[entry]? = some e ∧ deref tbl entry = e ∧ e.id = id := by
  obtain ⟨e, he, hid⟩ := hinv.1 id entry (locking_map_some_getElem? tbl id entry h)
  exact ⟨e, he, deref_of_getElem? tbl entry e he, hid⟩

/-- C4: the MG100 registry satisfies the registry invariant (every slot of `LOCKING_MAP`
that is not `NULL` points to an element of `LOCKING_TABLE` whose `id` is the slot's index,
and no two slots point to the same element); in every registry that satisfies it, and so in
the MG100 registry, the entry that `locking_map` returns for a valid id has that id. -/
theorem registry_invariant_holds (cfg : Config) :
    registry_invariant (MG100 cfg) ∧
    (∀ (tbl : locking_table), registry_invariant tbl →
      ∀ (id : Nat) (entry : entry_ptr), locking_map tbl id = some entry →
        (deref tbl entry).id = id) ∧
    (∀ (id : Nat) (entry : entry_ptr), locking_map (MG100 cfg) id = some entry →
      (deref (MG100 cfg) entry).id = id) := by
  have gen : ∀ (tbl : locking_table), registry_invariant tbl →
      ∀ (id : Nat) (entry : entry_ptr), locking_map tbl id = some entry →
        (deref tbl entry).id = id := by
    intro tbl hinv id entry h
    obtain ⟨e, _, hd, hid⟩ := locking_map_id_of_invariant tbl hinv id entry h
    rw [hd, hid]
  exact ⟨MG100_registry_invariant cfg, gen, gen (MG100 cfg) (MG100_registry_invariant cfg)⟩

theorem registry_invariant_holds_witness :
    locking_map (MG100 cfg_full) 0 = some 0 ∧ (deref (MG100 cfg_full) 0).id = 0 :=
  ⟨by decide, (registry_invariant_holds cfg_full).2.2 0 0 (by decide)⟩

/-- C5: for every valid id of the MG100 registry, `locking_table_index` applied to the
entry that `locking_map` returns does not fail its assertion and returns the position at
which the entry with that id is declared in `LOCKING_TABLE`, so the element at the returned
position has that id; the same holds, for the position the map points to, in every registry
that satisfies the registry invariant and has at most 65536 elements. -/
theorem lookup_then_index (cfg : Config) :
    (∀ (id : Nat) (entry : entry_ptr), locking_map (MG100 cfg) id = some entry →
      PART_OF_ARRAY (MG100 cfg) entry = true ∧
      locking_table_index (MG100 cfg) entry =
        (MG100 cfg).LOCKING_TABLE.findIdx? (fun e => e.id = id) ∧
      ∃ pos e, locking_table_index (MG100 cfg) entry = some pos ∧
        (MG100 cfg).LOCKING_TABLE[pos]? = some e ∧ e.id = id) ∧
    (∀ (tbl : locking_table), registry_invariant tbl → tbl.LOCKING_TABLE_SIZE ≤ 65536 →
      ∀ (id : Nat) (entry : entry_ptr), locking_map tbl id = some entry →
        PART_OF_ARRAY tbl entry = true ∧
        locking_table_index tbl entry = some entry ∧
        ∃ e, tbl.LOCKING_TABLE[entry]? = some e ∧ e.id = id) := by
  have gen : ∀ (tbl : locking_table), registry_invariant tbl → tbl.LOCKING_TABLE_SIZE ≤ 65536 →
      ∀ (id : Nat) (entry : entry_ptr), locking_map tbl id = some entry →
        PART_OF_ARRAY tbl entry = true ∧
        locking_table_index tbl entry = some entry ∧
        ∃ e, tbl.LOCKING_TABLE[entry]? = some e ∧ e.id = id := by
    intro tbl hinv hsize id entry h
    obtain ⟨e, he, _, hid⟩ := locking_map_id_of_invariant tbl hinv id entry h
    have hlt : entry < tbl.LOCKING_TABLE.length := by
      rcases Nat.lt_or_ge entry tbl.LOCKING_TABLE.length with hl | hl
      · exact hl
      · rw [List.getElem?_eq_none hl] at he
        exact absurd he (by simp)
    have hpart : PART_OF_ARRAY tbl entry = true := by
      simp [PART_OF_ARRAY, hlt]
    refine ⟨hpart, ?_, e, he, hid⟩
    unfold locking_table_index
    rw [if_pos hpart]
    have hsz : tbl.LOCKING_TABLE.length ≤ 65536 := by
      rw [tbl.array_size]; exact hsize
    have : (entry - 0) % 65536 = entry := by
      rw [Nat.sub_zero]
      exact Nat.mod_eq_of_lt (Nat.lt_of_lt_of_le hlt hsz)
    rw [this]
  refine ⟨?_, gen⟩
  intro id entry h
  have hid : id = 0 ∧ entry = 0 := by
    rw [MG100_locking_map] at h
    by_cases h0 : id = 0
    · rw [if_pos h0] at h
      simp at h
      exact ⟨h0, h.symm⟩
    · rw [if_neg h0] at h
      exact absurd h (by simp)
  obtain ⟨h0, h1⟩ := hid
  subst h0; subst h1
  exact ⟨rfl, rfl, 0, _, rfl, rfl, rfl⟩

theorem lookup_then_index_witness :
    locking_map (MG100 cfg_full) 0 = some 0 ∧
    PART_OF_ARRAY (MG100 cfg_full) 0 = true ∧
    locking_table_index (MG100 cfg_full) 0 =
      (MG100 cfg_full).LOCKING_TABLE.findIdx? (fun e => e.id = 0) ∧
    ∃ pos e, locking_table_index (MG100 cfg_full) 0 = some pos ∧
      (MG100 cfg_full).LOCKING_TABLE[pos]? = some e ∧ e.id = 0 :=
  ⟨by decide, (lookup_then_index cfg_full).1 0 0 (by decide)⟩

/-! ## Names -/

theorem strcmp_chars_eq_zero_iff (s t : List Char) : strcmp_chars s t = 0 ↔ s = t := by
  induction s generalizing t with
  | nil =>
    cases t with
    | nil => simp [strcmp_chars]
    | cons b t => simp [strcmp_chars]
  | cons a s ih =>
    cases t with
    | nil => simp [strcmp_chars]
    | cons b t =>
      unfold strcmp_chars
      by_cases hab : a = b
      · subst hab
        rw [if_pos rfl, ih t]
        simp
      · rw [if_neg hab]
        simp only [List.cons.injEq, hab, false_and, iff_false]
        split <;> decide

theorem strcmp_eq_zero_iff (a b : String) : strcmp a b = 0 ↔ a = b := by
  unfold strcmp
  rw [strcmp_chars_eq_zero_iff a.data b.data]
  constructor
  · intro h
    exact String.ext h
  · intro h
    rw [h]

theorem locking_get_id_loop_eq_find (name : String) (l : List locking_table_entry) :
    locking_get_id_loop name l =
      match l.find? (fun e => decide (e.name = name)) with
      | some e => e.id
      | none => LOCKING_INVALID_ID := by
  induction l with
  | nil => rfl
  | cons e rest ih =>
    unfold locking_get_id_loop
    by_cases h : e.name = name
    · have hs : strcmp name e.name = 0 := (strcmp_eq_zero_iff _ _).mpr h.symm
      rw [if_pos hs]
      simp [List.find?, h]
    · have hs : ¬ strcmp name e.name = 0 := fun hx => h ((strcmp_eq_zero_iff _ _).mp hx).symm
      rw [if_neg hs, ih]
      simp [List.find?, h]

theorem MG100_name (cfg : Config) :
    (deref (MG100 cfg) 0).name = if cfg.ATTR_STRING_NAME then "adc" else "" := by
  show (LOCK cfg "adc" adc).1 = _
  unfold LOCK
  split <;> rfl

theorem locking_get_id_loop_of_distinct (l : List locking_table_entry)
    (hd : l.Pairwise (fun a b => a.name ≠ b.name)) (k : Nat) (e : locking_table_entry)
    (he : l[k]? = some e) : locking_get_id_loop e.name l = e.id := by
  induction l generalizing k with
  | nil => simp at he
  | cons x rest ih =>
    unfold locking_get_id_loop
    rw [List.pairwise_cons] at hd
    cases k with
    | zero =>
      simp at he
      subst he
      rw [if_pos ((strcmp_eq_zero_iff _ _).mpr rfl)]
    | succ n =>
      rw [List.getElem?_cons_succ] at he
      have hmem : e ∈ rest := List.getElem?_mem he
      have hne : x.name ≠ e.name := hd.1 e hmem
      have hs : ¬ strcmp e.name x.name = 0 := fun hx => hne ((strcmp_eq_zero_iff _ _).mp hx).symm
      rw [if_neg hs]
      exact ih hd.2 n he

/-- The round trip through the name, in any registry that satisfies the registry invariant
and whose entries have pairwise different names. -/
theorem get_id_get_name (cfg : Config) (tbl : locking_table)
    (hl : cfg.LOCKING_STRING_NAME = true) (hinv : registry_invariant tbl)
    (hd : tbl.LOCKING_TABLE.Pairwise (fun a b => a.name ≠ b.name))
    (id : Nat) (hv : locking_valid_id tbl id = true) :
    locking_get_id cfg tbl (locking_get_name cfg tbl id) = id := by
  unfold locking_valid_id at hv
  obtain ⟨entry, hm⟩ := Option.isSome_iff_exists.mp hv
  obtain ⟨e, he, hde, hid⟩ := locking_map_id_of_invariant tbl hinv id entry hm
  have hn : locking_get_name cfg tbl id = e.name := by
    unfold locking_get_name
    rw [if_pos hl, hm]
    show (deref tbl entry).name = e.name
    rw [hde]
  unfold locking_get_id
  rw [if_pos hl, hn, locking_get_id_loop_of_distinct tbl.LOCKING_TABLE hd entry e he, hid]

theorem MG100_names_distinct (cfg : Config) :
    (MG100 cfg).LOCKING_TABLE.Pairwise (fun a b => a.name ≠ b.name) := by
  show List.Pairwise _ [_]
  exact List.pairwise_singleton _ _

/-- C6: in the build with `CONFIG_LOCKING_STRING_NAME` but without
`CONFIG_ATTR_STRING_NAME`, id 0 of the MG100 registry is valid, yet `locking_get_name(0)` is
the empty string and `locking_get_id("adc")` is `LOCKING_INVALID_ID`.  In every build with
both symbols `locking_get_name(0)` is `"adc"` and `locking_get_id("adc")` is 0.  In every
build with `CONFIG_LOCKING_STRING_NAME`, `locking_get_id(locking_get_name(id))` is `id` for
every valid id of the MG100 registry, and of any registry that satisfies the registry
invariant and whose entries have pairwise different names. -/
theorem name_round_trip_attr_symbol :
    (locking_valid_id (MG100 cfg_names_only) 0 = true ∧
      cfg_names_only.LOCKING_STRING_NAME = true ∧
      locking_get_name cfg_names_only (MG100 cfg_names_only) 0 = "" ∧
      locking_get_id cfg_names_only (MG100 cfg_names_only) "adc" = LOCKING_INVALID_ID) ∧
    (∀ cfg : Config, cfg.LOCKING_STRING_NAME = true → cfg.ATTR_STRING_NAME = true →
      locking_get_name cfg (MG100 cfg) 0 = "adc" ∧
      locking_get_id cfg (MG100 cfg) "adc" = 0) ∧
    (∀ cfg : Config, cfg.LOCKING_STRING_NAME = true →
      ∀ id : Nat, locking_valid_id (MG100 cfg) id = true →
        locking_get_id cfg (MG100 cfg) (locking_get_name cfg (MG100 cfg) id) = id) ∧
    (∀ (cfg : Config) (tbl : locking_table), cfg.LOCKING_STRING_NAME = true →
      registry_invariant tbl →
      tbl.LOCKING_TABLE.Pairwise (fun a b => a.name ≠ b.name) →
      ∀ id : Nat, locking_valid_id tbl id = true →
        locking_get_id cfg tbl (locking_get_name cfg tbl id) = id) := by
  refine ⟨⟨by decide, rfl, by decide, by decide⟩, ?_, ?_, ?_⟩
  · intro cfg hl ha
    constructor
    · unfold locking_get_name
      rw [if_pos hl, MG100_locking_map_zero]
      show (deref (MG100 cfg) 0).name = "adc"
      rw [MG100_name, if_pos ha]
    · unfold locking_get_id
      rw [if_pos hl]
      show locking_get_id_loop "adc" [deref (MG100 cfg) 0] = 0
      unfold locking_get_id_loop
      rw [MG100_name, if_pos ha]
      rfl
  · intro cfg hl id hv
    exact get_id_get_name cfg (MG100 cfg) hl (MG100_registry_invariant cfg)
      (MG100_names_distinct cfg) id hv
  · intro cfg tbl hl hinv hd id hv
    exact get_id_get_name cfg tbl hl hinv hd id hv

theorem name_round_trip_attr_symbol_witness :
    (cfg_full.LOCKING_STRING_NAME = true ∧ cfg_full.ATTR_STRING_NAME = true ∧
      locking_valid_id (MG100 cfg_full) 0 = true) ∧
    (locking_get_name cfg_full (MG100 cfg_full) 0 = "adc" ∧
      locking_get_id cfg_full (MG100 cfg_full) "adc" = 0) ∧
    locking_get_id cfg_full (MG100 cfg_full)
      (locking_get_name cfg_full (MG100 cfg_full) 0) = 0 :=
  ⟨⟨rfl, rfl, by decide⟩, name_round_trip_attr_symbol.2.1 cfg_full rfl rfl,
    name_round_trip_attr_symbol.2.2.1 cfg_full rfl 0 (by decide)⟩

theorem locking_get_id_loop_invalid_iff (name : String) (l : List locking_table_entry)
    (hid : ∀ e ∈ l, e.id ≠ LOCKING_INVALID_ID) :
    locking_get_id_loop name l = LOCKING_INVALID_ID ↔ ∀ e ∈ l, e.name ≠ name := by
  induction l with
  | nil => simp [locking_get_id_loop]
  | cons x rest ih =>
    unfold locking_get_id_loop
    have ih1 := ih (fun e he => hid e (List.mem_cons_of_mem _ he))
    by_cases h : x.name = name
    · rw [if_pos ((strcmp_eq_zero_iff _ _).mpr h.symm)]
      constructor
      · intro hx
        exact absurd hx (hid x (List.mem_cons_self x rest))
      · intro hall
        exact absurd h (hall x (List.mem_cons_self x rest))
    · have hs : ¬ strcmp name x.name = 0 := fun hx => h ((strcmp_eq_zero_iff _ _).mp hx).symm
      rw [if_neg hs, ih1]
      constructor
      · intro hall e he
        rcases List.mem_cons.mp he with rfl | hr
        · exact h
        · exact hall e hr
      · intro hall e he
        exact hall e (List.mem_cons_of_mem _ he)

theorem locking_valid_id_le (tbl : locking_table) (id : Nat)
    (hv : locking_valid_id tbl id = true) : id ≤ tbl.LOCKING_TABLE_MAX_ID := by
  rcases Nat.lt_or_ge tbl.LOCKING_TABLE_MAX_ID id with h | h
  · unfold locking_valid_id at hv
    rw [locking_map_of_gt tbl id h] at hv
    exact absurd hv (by simp)
  · exact h

/-- C7: without `CONFIG_LOCKING_STRING_NAME`, `locking_get_id` returns `LOCKING_INVALID_ID`
(65534) for every name and registry.  With it, `locking_get_id` returns the id of the first
entry of `LOCKING_TABLE`, in table order, whose name equals the argument, and
`LOCKING_INVALID_ID` when there is none; in the MG100 registry, and in any registry none of
whose entries has the id `LOCKING_INVALID_ID`, it returns `LOCKING_INVALID_ID` exactly when
no entry's name equals the argument.  `locking_valid_id(LOCKING_INVALID_ID)` is false in the
MG100 registry and in every registry with `LOCKING_TABLE_MAX_ID` below
`LOCKING_INVALID_ID`. -/
theorem get_id_sentinel (cfg : Config) :
    LOCKING_INVALID_ID = 65534 ∧
    (cfg.LOCKING_STRING_NAME = false → ∀ (tbl : locking_table) (name : String),
      locking_get_id cfg tbl name = LOCKING_INVALID_ID) ∧
    (cfg.LOCKING_STRING_NAME = true → ∀ (tbl : locking_table) (name : String),
      locking_get_id cfg tbl name =
        match tbl.LOCKING_TABLE.find? (fun e => decide (e.name = name)) with
        | some e => e.id
        | none => LOCKING_INVALID_ID) ∧
    (cfg.LOCKING_STRING_NAME = true → ∀ name : String,
      (locking_get_id cfg (MG100 cfg) name = LOCKING_INVALID_ID ↔
        ∀ e ∈ (MG100 cfg).LOCKING_TABLE, e.name ≠ name)) ∧
    (cfg.LOCKING_STRING_NAME = true → ∀ (tbl : locking_table),
      (∀ e ∈ tbl.LOCKING_TABLE, e.id ≠ LOCKING_INVALID_ID) → ∀ name : String,
      (locking_get_id cfg tbl name = LOCKING_INVALID_ID ↔
        ∀ e ∈ tbl.LOCKING_TABLE, e.name ≠ name)) ∧
    locking_valid_id (MG100 cfg) LOCKING_INVALID_ID = false ∧
    (∀ id : Nat, locking_valid_id (MG100 cfg) id = true → id ≠ LOCKING_INVALID_ID) ∧
    (∀ tbl : locking_table, tbl.LOCKING_TABLE_MAX_ID < LOCKING_INVALID_ID →
      locking_valid_id tbl LOCKING_INVALID_ID = false ∧
      ∀ id : Nat, locking_valid_id tbl id = true → id ≠ LOCKING_INVALID_ID) := by
  have gen : ∀ tbl : locking_table, tbl.LOCKING_TABLE_MAX_ID < LOCKING_INVALID_ID →
      locking_valid_id tbl LOCKING_INVALID_ID = false ∧
      ∀ id : Nat, locking_valid_id tbl id = true → id ≠ LOCKING_INVALID_ID := by
    intro tbl hmax
    constructor
    · unfold locking_valid_id
      rw [locking_map_of_gt tbl LOCKING_INVALID_ID hmax]
      rfl
    · intro id hv hid
      have := locking_valid_id_le tbl id hv
      omega
  have hmax : (MG100 cfg).LOCKING_TABLE_MAX_ID < LOCKING_INVALID_ID := by
    show 0 < 65534
    omega
  have hiff : cfg.LOCKING_STRING_NAME = true → ∀ (tbl : locking_table),
      (∀ e ∈ tbl.LOCKING_TABLE, e.id ≠ LOCKING_INVALID_ID) → ∀ name : String,
      (locking_get_id cfg tbl name = LOCKING_INVALID_ID ↔
        ∀ e ∈ tbl.LOCKING_TABLE, e.name ≠ name) := by
    intro hl tbl hid name
    unfold locking_get_id
    rw [if_pos hl]
    exact locking_get_id_loop_invalid_iff name tbl.LOCKING_TABLE hid
  refine ⟨rfl, ?_, ?_, ?_, hiff, (gen (MG100 cfg) hmax).1, (gen (MG100 cfg) hmax).2, gen⟩
  · intro hl tbl name
    unfold locking_get_id
    rw [hl]
    rfl
  · intro hl tbl name
    unfold locking_get_id
    rw [if_pos hl]
    exact locking_get_id_loop_eq_find name tbl.LOCKING_TABLE
  · intro hl name
    apply hiff hl (MG100 cfg)
    intro e he
    have : e = deref (MG100 cfg) 0 := by
      have he1 : e ∈ [deref (MG100 cfg) 0] := he
      simpa using he1
    rw [this]
    show (0 : Nat) ≠ 65534
    omega

theorem get_id_sentinel_witness :
    (cfg_plain.LOCKING_STRING_NAME = false ∧
      locking_get_id cfg_plain (MG100 cfg_plain) "adc" = LOCKING_INVALID_ID) ∧
    (cfg_full.LOCKING_STRING_NAME = true ∧
      (locking_get_id cfg_full (MG100 cfg_full) "adc" = LOCKING_INVALID_ID ↔
        ∀ e ∈ (MG100 cfg_full).LOCKING_TABLE, e.name ≠ "adc")) ∧
    ((MG100 cfg_full).LOCKING_TABLE_MAX_ID < LOCKING_INVALID_ID ∧
      locking_valid_id (MG100 cfg_full) LOCKING_INVALID_ID = false) :=
  ⟨⟨rfl, (get_id_sentinel cfg_plain).2.1 rfl (MG100 cfg_plain) "adc"⟩,
    ⟨rfl, (get_id_sentinel cfg_full).2.2.2.1 rfl "adc"⟩,
    ⟨by decide, ((get_id_sentinel cfg_full).2.2.2.2.2.2.2 (MG100 cfg_full) (by decide)).1⟩⟩

/-! ## The shell commands: arguments -/

theorem ats_get_cmd_bad_args {σ : Type} (cfg : Config) (Z : zephyr σ) (L : locking_h σ)
    (shell : shell_ptr) (argc : Nat) (argv : List (Option String)) (st : σ)
    (h : argc ≠ 2 ∨ argv_at argv 1 = none) :
    ats_get_cmd cfg Z L shell argc argv st =
      (-EINVAL, Z.shell_error shell "Unexpected parameters" [] st) := by
  unfold ats_get_cmd
  rcases h with h | h
  · simp [h]
  · rw [h]
    split <;> simp_all

theorem ats_give_cmd_bad_args {σ : Type} (cfg : Config) (Z : zephyr σ) (L : locking_h σ)
    (shell : shell_ptr) (argc : Nat) (argv : List (Option String)) (st : σ)
    (h : argc ≠ 2 ∨ argv_at argv 1 = none) :
    ats_give_cmd cfg Z L shell argc argv st =
      (-EINVAL, Z.shell_error shell "Unexpected parameters" [] st) := by
  unfold ats_give_cmd
  rcases h with h | h
  · simp [h]
  · rw [h]
    split <;> simp_all

theorem ats_take_cmd_bad_args {σ : Type} (cfg : Config) (Z : zephyr σ) (L : locking_h σ)
    (shell : shell_ptr) (argc : Nat) (argv : List (Option String)) (st : σ)
    (h : (argc ≠ 2 ∧ argc ≠ 3) ∨ argv_at argv 1 = none ∨
      (argc = 3 ∧ argv_at argv 2 = none)) :
    ats_take_cmd cfg Z L shell argc argv st =
      (-EINVAL, Z.shell_error shell "Unexpected parameters" [] st) := by
  unfold ats_take_cmd
  rcases h with h | h | h
  · simp [h.1, h.2]
  · rw [h]
    split <;> simp_all
  · rw [h.1, h.2]
    split
    · simp
    · rfl

/-- C8: for the shell commands `get` and `give` with `argc` other than 2 or `argv[1]` `NULL`,
and for `take` with `argc` neither 2 nor 3, or `argv[1]` `NULL`, or `argc` 3 and `argv[2]`
`NULL`: the command returns `-EINVAL` and the system afterwards is the system before with the
one error report "Unexpected parameters", whatever `locking_show`, `locking_take` and
`locking_give` are, so none of them is called; an implementation that records its calls
records only the error report. -/
theorem shell_bad_arguments (cfg : Config) :
    (∀ (σ : Type) (Z : zephyr σ) (L : locking_h σ) (shell : shell_ptr) (argc : Nat)
        (argv : List (Option String)) (st : σ),
      (argc ≠ 2 ∨ argv_at argv 1 = none →
        ats_get_cmd cfg Z L shell argc argv st =
          (-EINVAL, Z.shell_error shell "Unexpected parameters" [] st) ∧
        ats_give_cmd cfg Z L shell argc argv st =
          (-EINVAL, Z.shell_error shell "Unexpected parameters" [] st)) ∧
      ((argc ≠ 2 ∧ argc ≠ 3) ∨ argv_at argv 1 = none ∨ (argc = 3 ∧ argv_at argv 2 = none) →
        ats_take_cmd cfg Z L shell argc argv st =
          (-EINVAL, Z.shell_error shell "Unexpected parameters" [] st))) ∧
    (∀ (ret : Int) (shell : shell_ptr) (argc : Nat) (argv : List (Option String)),
      (argc ≠ 2 ∨ argv_at argv 1 = none →
        ats_get_cmd cfg sink_recorder (api_recorder ret) shell argc argv [] =
          (-EINVAL, [shell_call.shell_error shell "Unexpected parameters" []]) ∧
        ats_give_cmd cfg sink_recorder (api_recorder ret) shell argc argv [] =
          (-EINVAL, [shell_call.shell_error shell "Unexpected parameters" []])) ∧
      ((argc ≠ 2 ∧ argc ≠ 3) ∨ argv_at argv 1 = none ∨ (argc = 3 ∧ argv_at argv 2 = none) →
        ats_take_cmd cfg sink_recorder (api_recorder ret) shell argc argv [] =
          (-EINVAL, [shell_call.shell_error shell "Unexpected parameters" []]))) := by
  constructor
  · intro σ Z L shell argc argv st
    exact ⟨fun h => ⟨ats_get_cmd_bad_args cfg Z L shell argc argv st h,
        ats_give_cmd_bad_args cfg Z L shell argc argv st h⟩,
      fun h => ats_take_cmd_bad_args cfg Z L shell argc argv st h⟩
  · intro ret shell argc argv
    refine ⟨fun h => ⟨?_, ?_⟩, fun h => ?_⟩
    · rw [ats_get_cmd_bad_args cfg _ _ shell argc argv [] h]; rfl
    · rw [ats_give_cmd_bad_args cfg _ _ shell argc argv [] h]; rfl
    · rw [ats_take_cmd_bad_args cfg _ _ shell argc argv [] h]; rfl

theorem shell_bad_arguments_witness :
    ((1 : Nat) ≠ 2 ∨ argv_at [some "get"] 1 = none) ∧
    (((4 : Nat) ≠ 2 ∧ (4 : Nat) ≠ 3) ∨ argv_at [some "take", some "0", some "1", some "2"] 1 = none ∨
      ((4 : Nat) = 3 ∧ argv_at [some "take", some "0", some "1", some "2"] 2 = none)) ∧
    (ats_get_cmd cfg_full ref_zephyr (locking_c cfg_full ref_zephyr (MG100 cfg_full)) 7 1
        [some "get"] ref_boot =
      (-EINVAL, ref_zephyr.shell_error 7 "Unexpected parameters" [] ref_boot) ∧
     ats_give_cmd cfg_full ref_zephyr (locking_c cfg_full ref_zephyr (MG100 cfg_full)) 7 1
        [some "get"] ref_boot =
      (-EINVAL, ref_zephyr.shell_error 7 "Unexpected parameters" [] ref_boot)) ∧
    ats_take_cmd cfg_full ref_zephyr (locking_c cfg_full ref_zephyr (MG100 cfg_full)) 7 4
        [some "take", some "0", some "1", some "2"] ref_boot =
      (-EINVAL, ref_zephyr.shell_error 7 "Unexpected parameters" [] ref_boot) :=
  ⟨by decide, by decide,
    ((shell_bad_arguments cfg_full).1 ref_state ref_zephyr
      (locking_c cfg_full ref_zephyr (MG100 cfg_full)) 7 1 [some "get"] ref_boot).1 (by decide),
    ((shell_bad_arguments cfg_full).1 ref_state ref_zephyr
      (locking_c cfg_full ref_zephyr (MG100 cfg_full)) 7 4
      [some "take", some "0", some "1", some "2"] ref_boot).2 (by decide)⟩

/-! ## `strtoul` -/

theorem spec_digit_eq (base : Nat) (hb : base ≤ 16) (c : Char) :
    spec_digit base c =
      match digit_of c with
      | some d => if d < base then some d else none
      | none => none := by
  unfold spec_digit digit_of isdigit isalpha isupper
  generalize c.toNat = n
  by_cases h1 : 48 ≤ n ∧ n ≤ 57
  · simp [h1, Option.filter]
  · by_cases h2 : 97 ≤ n ∧ n ≤ 102
    · have e : n - 97 + 10 = n - (97 - 10) := by omega
      have h3 : ¬ (65 ≤ n ∧ n ≤ 90) := by omega
      have h4 : 97 ≤ n ∧ n ≤ 122 := by omega
      simp [h1, h2, h3, h4, Option.filter, e]
    · by_cases h3 : 65 ≤ n ∧ n ≤ 70
      · have e : n - 65 + 10 = n - (65 - 10) := by omega
        have h4 : 65 ≤ n ∧ n ≤ 90 := by omega
        simp [h1, h2, h3, h4, Option.filter, e]
      · by_cases h4 : 65 ≤ n ∧ n ≤ 90
        · have : ¬ (n - (65 - 10) < base) := by omega
          have h6 : ¬ n ≤ 70 := by omega
          simp [h1, h2, h3, h4, h6, Option.filter, this]
        · by_cases h5 : 97 ≤ n ∧ n ≤ 122
          · have : ¬ (n - (97 - 10) < base) := by omega
            have h6 : ¬ n ≤ 102 := by omega
            simp [h1, h2, h3, h4, h5, h6, Option.filter, this]
          · simp [h1, h2, h3, h4, h5, Option.filter]

theorem strtoul_cutoff_iff (umax base acc d : Nat) (hb : 0 < base) (hd : d < base) :
    (acc > umax / base ∨ (acc = umax / base ∧ d > umax % base)) ↔ umax < acc * base + d := by
  have hdm := Nat.div_add_mod umax base
  have hmod := Nat.mod_lt umax hb
  constructor
  · rintro (h | ⟨h1, h2⟩)
    · have h' : umax / base + 1 ≤ acc := h
      have := Nat.mul_le_mul_right base h'
      rw [Nat.add_mul, Nat.one_mul, Nat.mul_comm] at this
      omega
    · subst h1
      rw [Nat.mul_comm]
      omega
  · intro h
    by_cases hgt : acc > umax / base
    · exact Or.inl hgt
    · right
      have hle : acc ≤ umax / base := Nat.le_of_not_gt hgt
      rcases Nat.lt_or_eq_of_le hle with hlt | heq
      · exfalso
        have h' : acc + 1 ≤ umax / base := hlt
        have := Nat.mul_le_mul_right base h'
        rw [Nat.add_mul, Nat.one_mul, Nat.mul_comm (umax / base)] at this
        omega
      · refine ⟨heq, ?_⟩
        subst heq
        rw [Nat.mul_comm] at h
        omega

theorem strtoul_loop_neg (umax base : Nat) (s : List Char) (acc : Nat) (any : Int)
    (h : any < 0) : (strtoul_loop umax base s acc any).2 < 0 := by
  induction s generalizing acc any with
  | nil => exact h
  | cons c s ih =>
    unfold strtoul_loop
    cases hd : digit_of c with
    | none => exact h
    | some d =>
      simp only []
      by_cases hge : d ≥ base
      · rw [if_pos hge]; exact h
      · rw [if_neg hge, if_pos (Or.inl h)]
        exact ih acc (-1) (by decide)

theorem foldl_step_ge (base : Nat) (ds : List Nat) (acc : Nat) (hb : 0 < base) :
    acc ≤ ds.foldl (fun a d => a * base + d) acc := by
  induction ds generalizing acc with
  | nil => exact Nat.le_refl _
  | cons d ds ih =>
    have h1 : acc ≤ acc * base + d :=
      Nat.le_trans (Nat.le_mul_of_pos_right acc hb) (Nat.le_add_right _ _)
    exact Nat.le_trans h1 (ih (acc * base + d))

/-- The digit loop of `strtoul` computes the number that the digits denote, or reports
that it exceeds the maximum. -/
theorem strtoul_loop_spec (umax base : Nat) (hb : 0 < base) (hb16 : base ≤ 16)
    (s : List Char) (acc : Nat) (any : Int) (hany : 0 ≤ any) (hacc : acc ≤ umax) :
    ((spec_digits base s).foldl (fun a d => a * base + d) acc ≤ umax →
      (strtoul_loop umax base s acc any).1 =
        (spec_digits base s).foldl (fun a d => a * base + d) acc ∧
      0 ≤ (strtoul_loop umax base s acc any).2) ∧
    (umax < (spec_digits base s).foldl (fun a d => a * base + d) acc →
      (strtoul_loop umax base s acc any).2 < 0) := by
  induction s generalizing acc any with
  | nil =>
    constructor
    · intro _; exact ⟨rfl, hany⟩
    · intro h
      exact absurd hacc (Nat.not_le.mpr h)
  | cons c s ih =>
    unfold strtoul_loop spec_digits
    rw [spec_digit_eq base hb16 c]
    cases hd : digit_of c with
    | none =>
      simp only [List.foldl_nil]
      exact ⟨fun _ => ⟨trivial, hany⟩, fun h => absurd hacc (Nat.not_le.mpr h)⟩
    | some d =>
      simp only []
      by_cases hlt : d < base
      · have hge : ¬ d ≥ base := Nat.not_le.mpr hlt
        rw [if_neg hge, if_pos hlt]
        simp only [List.foldl_cons]
        have hmono := foldl_step_ge base (spec_digits base s) (acc * base + d) hb
        by_cases hov : umax < acc * base + d
        · have hc : any < 0 ∨ acc > umax / base ∨ (acc = umax / base ∧ d > umax % base) :=
            Or.inr ((strtoul_cutoff_iff umax base acc d hb hlt).mpr hov)
          rw [if_pos hc]
          constructor
          · intro h
            exact absurd (Nat.le_trans hmono h) (Nat.not_le.mpr hov)
          · intro _
            exact strtoul_loop_neg umax base s acc (-1) (by decide)
        · have hc : ¬ (any < 0 ∨ acc > umax / base ∨
              (acc = umax / base ∧ d > umax % base)) := by
            rintro (h | h)
            · exact absurd hany (Int.not_le.mpr h)
            · exact hov ((strtoul_cutoff_iff umax base acc d hb hlt).mp h)
          rw [if_neg hc]
          exact ih (acc * base + d) 1 (by decide) (Nat.le_of_not_lt hov)
      · have hge : d ≥ base := Nat.le_of_not_lt hlt
        rw [if_pos hge, if_neg hlt]
        simp only [List.foldl_nil]
        exact ⟨fun _ => ⟨trivial, hany⟩, fun h => absurd hacc (Nat.not_le.mpr h)⟩

theorem isdigit_facts (c : Char) (hc : isdigit c = true) :
    isspace c = false ∧ c ≠ '-' ∧ c ≠ '+' := by
  unfold isdigit at hc
  simp only [Bool.and_eq_true, decide_eq_true_eq] at hc
  refine ⟨?_, ?_, ?_⟩
  · unfold isspace
    simp only [Bool.or_eq_false_iff, Bool.and_eq_false_iff, decide_eq_false_iff_not]
    omega
  · rintro rfl
    revert hc
    decide
  · rintro rfl
    revert hc
    decide

theorem strtoul_saturate (umax base : Nat) (hb : 0 < base) (hb16 : base ≤ 16)
    (s : List Char) :
    (if (strtoul_loop umax base s 0 0).2 < 0 then umax
      else (strtoul_loop umax base s 0 0).1) =
    if spec_number base (spec_digits base s) ≤ umax then spec_number base (spec_digits base s)
    else umax := by
  obtain ⟨h1, h2⟩ := strtoul_loop_spec umax base hb hb16 s 0 0 (Int.le_refl 0) (Nat.zero_le _)
  unfold spec_number
  by_cases h : (spec_digits base s).foldl (fun a d => a * base + d) 0 ≤ umax
  · obtain ⟨e1, e2⟩ := h1 h
    rw [if_pos h, if_neg (Int.not_lt.mpr e2), e1]
  · rw [if_neg h, if_pos (h2 (Nat.lt_of_not_le h))]

theorem strtoul_digit_head (cfg : Config) (str : String) (c : Char) (t : List Char)
    (hdata : str.data = c :: t) (hc : isdigit c = true) :
    strtoul cfg str 0 =
      if token_value str ≤ ULONG_MAX cfg then token_value str else ULONG_MAX cfg := by
  obtain ⟨hsp, hm, hp⟩ := isdigit_facts c hc
  have hdrop : (c :: t).dropWhile isspace = c :: t := by
    rw [List.dropWhile_cons_of_neg (by simp [hsp])]
  unfold strtoul token_value
  simp only [hdata, hdrop, List.head?_cons, Option.some.injEq, hm, hp, or_self, if_false,
    decide_False, List.tail_cons, true_or, true_and]
  by_cases hhex : c = '0' ∧ (t.head? = some 'x' ∨ t.head? = some 'X')
  · obtain ⟨h0, hx⟩ := hhex
    subst h0
    cases t with
    | nil => simp at hx
    | cons x t' =>
      simp only [List.head?_cons, Option.some.injEq] at hx
      have htake : List.take 2 ('0' :: x :: t') = ['0', 'x'] ∨
          List.take 2 ('0' :: x :: t') = ['0', 'X'] := by
        rcases hx with rfl | rfl
        · left; rfl
        · right; rfl
      simp only [List.head?_cons, Option.some.injEq, hx, and_self, decide_True, if_true,
        if_pos htake, List.tail_cons, Nat.reduceEqDiff, if_false, Bool.false_eq_true]
      exact strtoul_saturate (ULONG_MAX cfg) 16 (by decide) (by decide) t'
  · have htake : ¬ (List.take 2 (c :: t) = ['0', 'x'] ∨ List.take 2 (c :: t) = ['0', 'X']) := by
      intro h
      apply hhex
      cases t with
      | nil => simp at h
      | cons x t' =>
        simp only [List.take, List.cons.injEq, and_true] at h
        rcases h with ⟨h1, h2⟩ | ⟨h1, h2⟩
        · exact ⟨h1, Or.inl (by rw [h2]; rfl)⟩
        · exact ⟨h1, Or.inr (by rw [h2]; rfl)⟩
    simp only [hhex, decide_False, if_neg htake, Bool.false_eq_true, if_false, if_true,
      List.head?_cons, Option.some.injEq]
    by_cases h0 : c = '0'
    · subst h0
      have htake1 : List.take 1 ('0' :: t) = ['0'] := rfl
      simp only [if_true, if_pos htake1, List.drop_one, List.tail_cons]
      rw [strtoul_saturate (ULONG_MAX cfg) 8 (by decide) (by decide) ('0' :: t)]
      have h8 : spec_number 8 (spec_digits 8 ('0' :: t)) = spec_number 8 (spec_digits 8 t) := by
        have hd0 : spec_digit 8 '0' = some 0 := by decide
        unfold spec_number
        rw [spec_digits, hd0]
        rfl
      rw [h8]
    · have htake1 : ¬ List.take 1 (c :: t) = ['0'] := by
        simp only [List.take, List.cons.injEq, and_true]
        exact h0
      simp only [h0, if_false, if_neg htake1]
      exact strtoul_saturate (ULONG_MAX cfg) 10 (by decide) (by decide) (c :: t)

theorem digit_of_not_isdigit (c : Char) (hc : isdigit c = false) (d : Nat)
    (hd : digit_of c = some d) : 10 ≤ d := by
  unfold digit_of at hd
  rw [hc] at hd
  simp only [Bool.false_eq_true, if_false] at hd
  by_cases ha : isalpha c = true
  · rw [if_pos ha] at hd
    simp only [Option.some.injEq] at hd
    unfold isalpha at ha
    by_cases hu : isupper c = true
    · rw [if_pos hu] at hd
      unfold isupper at hu
      simp only [Bool.and_eq_true, decide_eq_true_eq] at hu
      omega
    · rw [if_neg hu] at hd
      have hu' : isupper c = false := by simpa using hu
      rw [hu'] at ha
      simp only [Bool.false_or, Bool.and_eq_true, decide_eq_true_eq] at ha
      omega
  · rw [if_neg ha] at hd
    exact absurd hd (by simp)

theorem strtoul_loop_no_digit (umax : Nat) (s : List Char)
    (h : isdigit (s.headD (Char.ofNat 0)) = false) :
    strtoul_loop umax 10 s 0 0 = (0, 0) := by
  cases s with
  | nil => rfl
  | cons c t =>
    have hc : isdigit c = false := h
    unfold strtoul_loop
    cases hd : digit_of c with
    | none => rfl
    | some d =>
      have := digit_of_not_isdigit c hc d hd
      simp only []
      rw [if_pos this]

/-- On a token that holds no number `strtoul` with base 0 returns 0. -/
theorem strtoul_non_numeric (cfg : Config) (str : String) (h : non_numeric str) :
    strtoul cfg str 0 = 0 := by
  unfold non_numeric at h
  simp only [] at h
  simp only [strtoul]
  generalize (if (List.dropWhile isspace str.data).head? = some '-' ∨
      (List.dropWhile isspace str.data).head? = some '+' then
      (List.dropWhile isspace str.data).tail else List.dropWhile isspace str.data) = s1 at h ⊢
  have hne : s1.head? ≠ some '0' := by
    intro h0
    cases s1 with
    | nil => simp at h0
    | cons c t =>
      simp only [List.head?_cons, Option.some.injEq] at h0
      subst h0
      have hz : isdigit '0' = true := by decide
      rw [List.headD_cons, hz] at h
      exact absurd h (by simp)
  simp only [hne, false_and, and_false, decide_False, Bool.false_eq_true, if_false, if_true]
  rw [strtoul_loop_no_digit (ULONG_MAX cfg) s1 h]
  simp

/-! ## The shell commands: tokens -/

/-- C9, as the code has it: for the shell command `take` with three arguments, none of them
`NULL`, and a timeout token `argv[2]` that holds no number (such as `"abc"`), no argument
error is reported: the token counts as 0, `locking_take` is called once, with the resolved
id and the timeout `K_SECONDS(0)`, its outcome is printed ("taken", or "take failed" with
the status), and the command returns 0. -/
theorem take_non_numeric_timeout {σ : Type} (cfg : Config) (Z : zephyr σ) (L : locking_h σ)
    (shell : shell_ptr) (argv : List (Option String)) (a1 a2 : String) (st : σ)
    (h1 : argv_at argv 1 = some a1) (h2 : argv_at argv 2 = some a2)
    (hn : non_numeric a2) :
    ats_take_cmd cfg Z L shell 3 argv st =
      (0,
        if (L.locking_take (get_id cfg L a1) (Z.K_SECONDS 0) st).1 = 0 then
          Z.shell_print shell "Lock %d (%s) taken"
            [.d (get_id cfg L a1), .s (L.locking_get_name (get_id cfg L a1))]
            (L.locking_take (get_id cfg L a1) (Z.K_SECONDS 0) st).2
        else
          Z.shell_error shell "Lock %d (%s) take failed: %d"
            [.d (get_id cfg L a1), .s (L.locking_get_name (get_id cfg L a1)),
              .d (L.locking_take (get_id cfg L a1) (Z.K_SECONDS 0) st).1]
            (L.locking_take (get_id cfg L a1) (Z.K_SECONDS 0) st).2) := by
  unfold ats_take_cmd
  rw [h1, h2]
  simp only [Nat.reduceEqDiff, or_true, decide_True, if_true]
  rw [strtoul_non_numeric cfg a2 hn]
  unfold ats_take_cmd_take
  simp only [Nat.zero_mod]
  split <;> rfl

theorem take_non_numeric_timeout_witness :
    argv_at [some "take", some "0", some "abc"] 1 = some "0" ∧
    argv_at [some "take", some "0", some "abc"] 2 = some "abc" ∧
    non_numeric "abc" ∧
    ats_take_cmd cfg_plain sink_recorder (api_recorder 0) 7 3
        [some "take", some "0", some "abc"] [] =
      (0, [shell_call.locking_take 0 0,
        shell_call.shell_print 7 "Lock %d (%s) taken" [.d 0, .s "?"]]) :=
  ⟨rfl, rfl, by decide,
    take_non_numeric_timeout cfg_plain sink_recorder (api_recorder 0) 7
      [some "take", some "0", some "abc"] "0" "abc" [] rfl rfl (by decide)⟩

/-- Counterexample to C9 as stated, on the reference system after `take 0 abc`: the command returned 0, the mutex `adc` is held
once by the calling thread, and the sinks have received the log line of the verbose build
and the report "taken", but no error report. -/
theorem take_non_numeric_timeout_counterexample :
    non_numeric "abc" ∧
    (ats_take_cmd cfg_full ref_zephyr (locking_c cfg_full ref_zephyr (MG100 cfg_full)) 7 3
      [some "take", some "0", some "abc"] ref_boot).1 = 0 ∧
    (ats_take_cmd cfg_full ref_zephyr (locking_c cfg_full ref_zephyr (MG100 cfg_full)) 7 3
      [some "take", some "0", some "abc"] ref_boot).1 ≠ -EINVAL ∧
    (ats_take_cmd cfg_full ref_zephyr (locking_c cfg_full ref_zephyr (MG100 cfg_full)) 7 3
      [some "take", some "0", some "abc"] ref_boot).2.mutex adc =
      { owner := some ref_boot.current, lock_count := 1 } ∧
    (ats_take_cmd cfg_full ref_zephyr (locking_c cfg_full ref_zephyr (MG100 cfg_full)) 7 3
      [some "take", some "0", some "abc"] ref_boot).2.out =
      [out_line.log "[%03u] %-20s: mutex (%d lock%s held%s%s)"
          [.d 0, .s "adc", .d 1, .s "", .s " by ", .s "main"],
        out_line.print 7 "Lock %d (%s) taken" [.d 0, .s "adc"]] ∧
    ats_take_cmd cfg_full sink_recorder (api_recorder 0) 7 3
        [some "take", some "0", some "abc"] [] =
      (0, [shell_call.locking_take 0 0,
        shell_call.shell_print 7 "Lock %d (%s) taken" [.d 0, .s "?"]]) := by
  refine ⟨by decide, by decide, by decide, by decide, by decide, by decide⟩

theorem isdigit_eq_isDigit (c : Char) : isdigit c = c.isDigit := by
  unfold isdigit Char.isDigit Char.toNat
  simp only [ge_iff_le, UInt32.le_def, Fin.le_def]
  rfl

theorem is_string_iff (str : String) :
    is_string str = true ↔
      str.data = [] ∨ ∃ c t, str.data = c :: t ∧ c.isDigit = false := by
  unfold is_string
  cases hs : str.data with
  | nil =>
    have : isdigit (Char.ofNat 0) = false := by decide
    simp [this]
  | cons c t =>
    rw [List.headD_cons, isdigit_eq_isDigit]
    cases hd : c.isDigit <;> simp [hd]

theorem ULONG_MAX_mod (cfg : Config) (h : 16 ≤ cfg.ULONG_BITS) :
    ULONG_MAX cfg % 65536 = 65535 := by
  unfold ULONG_MAX
  obtain ⟨k, hk⟩ := Nat.exists_eq_add_of_le h
  rw [hk, Nat.pow_add]
  have hpos : 0 < 2 ^ k := Nat.two_pow_pos k
  obtain ⟨m, hm⟩ := Nat.exists_eq_add_of_lt hpos
  have e : 2 ^ 16 * 2 ^ k - 1 = 65535 + 65536 * m := by
    rw [hm]
    omega
  rw [e, Nat.add_mul_mod_self_left]

theorem get_id_numeric {σ : Type} (cfg : Config) (L : locking_h σ) (str : String)
    (h : is_string str = false) :
    get_id cfg L str =
      (if token_value str ≤ ULONG_MAX cfg then token_value str else ULONG_MAX cfg) % 65536 := by
  unfold get_id
  rw [h]
  simp only [Bool.false_eq_true, if_false]
  unfold is_string at h
  cases hs : str.data with
  | nil =>
    rw [hs] at h
    have hz : isdigit (Char.ofNat 0) = false := by decide
    simp [hz] at h
  | cons c t =>
    rw [hs, List.headD_cons] at h
    have hc : isdigit c = true := by
      cases hd : isdigit c
      · rw [hd] at h
        simp at h
      · rfl
    rw [strtoul_digit_head cfg str c t hs hc]

/-- C10, as the code has it: the shell's `get_id` returns `locking_get_id(str)` when the
first character of the token is not a decimal digit (the empty token included).  Otherwise
it returns, reduced modulo 65536, the value of the token parsed as a base-flexible integer
(hexadecimal after `0x`, octal after a leading `0`, else decimal, up to the first character
that is no digit) when that value is at most `ULONG_MAX`, and `ULONG_MAX` reduced modulo
65536 when the value is larger: with an `unsigned long` of at least 16 bits, a token that
denotes `n` resolves to `n % 65536` for `n` up to `ULONG_MAX` and to 65535 above. -/
theorem get_id_token (cfg : Config) :
    (∀ str : String, is_string str = true ↔
      str.data = [] ∨ ∃ c t, str.data = c :: t ∧ c.isDigit = false) ∧
    (∀ (σ : Type) (L : locking_h σ) (str : String), is_string str = true →
      get_id cfg L str = L.locking_get_id str) ∧
    (∀ (σ : Type) (L : locking_h σ) (str : String), is_string str = false →
      get_id cfg L str =
        (if token_value str ≤ ULONG_MAX cfg then token_value str else ULONG_MAX cfg)
          % 65536) ∧
    (16 ≤ cfg.ULONG_BITS →
      ∀ (σ : Type) (L : locking_h σ) (str : String), is_string str = false →
        (token_value str ≤ ULONG_MAX cfg → get_id cfg L str = token_value str % 65536) ∧
        (ULONG_MAX cfg < token_value str → get_id cfg L str = 65535)) := by
  refine ⟨is_string_iff, ?_, ?_, ?_⟩
  · intro σ L str h
    unfold get_id
    rw [if_pos h]
  · intro σ L str h
    exact get_id_numeric cfg L str h
  · intro hbits σ L str h
    rw [get_id_numeric cfg L str h]
    constructor
    · intro hle
      rw [if_pos hle]
    · intro hgt
      rw [if_neg (Nat.not_le.mpr hgt)]
      exact ULONG_MAX_mod cfg hbits

theorem get_id_token_witness :
    (is_string "adc" = true ∧
      get_id cfg_full (locking_c cfg_full ref_zephyr (MG100 cfg_full)) "adc" =
        locking_get_id cfg_full (MG100 cfg_full) "adc") ∧
    (16 ≤ cfg_full.ULONG_BITS ∧ is_string "0x10001" = false ∧
      token_value "0x10001" ≤ ULONG_MAX cfg_full ∧
      get_id cfg_full (locking_c cfg_full ref_zephyr (MG100 cfg_full)) "0x10001" =
        token_value "0x10001" % 65536) :=
  ⟨⟨by decide, (get_id_token cfg_full).2.1 ref_state
      (locking_c cfg_full ref_zephyr (MG100 cfg_full)) "adc" (by decide)⟩,
    by decide, by decide, by decide,
    ((get_id_token cfg_full).2.2.2 (by decide) ref_state
      (locking_c cfg_full ref_zephyr (MG100 cfg_full)) "0x10001" (by decide)).1 (by decide)⟩

/-- Counterexample to C10 as stated, the token `4294967296` on a target with a 32-bit
`unsigned long`: it starts with a
digit and denotes 4294967296, which is 0 modulo 65536, but `get_id` returns 65535. -/
theorem get_id_token_counterexample :
    is_string "4294967296" = false ∧
    token_value "4294967296" = 4294967296 ∧
    token_value "4294967296" % 65536 = 0 ∧
    get_id cfg_full (locking_c cfg_full ref_zephyr (MG100 cfg_full)) "4294967296" = 65535 ∧
    get_id cfg_full (locking_c cfg_full ref_zephyr (MG100 cfg_full)) "4294967296" ≠
      token_value "4294967296" % 65536 := by
  refine ⟨by decide, by decide, by decide, by decide, by decide⟩

/-! ## Dispatch by type -/

theorem locking_take_dispatch {σ : Type} (cfg : Config) (Z : zephyr σ) (tbl : locking_table)
    (id : Nat) (entry : entry_ptr) (wait_time : k_timeout_t) (st : σ)
    (hm : locking_map tbl id = some entry) :
    locking_take cfg Z tbl id wait_time st =
      if (deref tbl entry).type = LOCKING_TYPE_MUTEX then
        ((Z.k_mutex_lock (deref tbl entry).pData wait_time st).1,
          verbose_show cfg Z tbl entry (Z.k_mutex_lock (deref tbl entry).pData wait_time st).2)
      else if (deref tbl entry).type = LOCKING_TYPE_SEMAPHORE then
        ((Z.k_sem_take (deref tbl entry).pData wait_time st).1,
          verbose_show cfg Z tbl entry (Z.k_sem_take (deref tbl entry).pData wait_time st).2)
      else (-EINVAL, verbose_show cfg Z tbl entry st) := by
  unfold locking_take verbose_show
  rw [hm]
  simp only []
  by_cases h1 : (deref tbl entry).type = LOCKING_TYPE_MUTEX
  · simp only [h1, if_true]
    split <;> rfl
  · by_cases h2 : (deref tbl entry).type = LOCKING_TYPE_SEMAPHORE
    · simp only [h2, if_true, if_neg h1]
      split <;> simp
    · simp only [if_neg h1, if_neg h2]
      split <;> rfl

theorem locking_give_dispatch {σ : Type} (cfg : Config) (Z : zephyr σ) (tbl : locking_table)
    (id : Nat) (entry : entry_ptr) (st : σ)
    (hm : locking_map tbl id = some entry) :
    locking_give cfg Z tbl id st =
      if (deref tbl entry).type = LOCKING_TYPE_MUTEX then
        ((Z.k_mutex_unlock (deref tbl entry).pData st).1,
          verbose_show cfg Z tbl entry (Z.k_mutex_unlock (deref tbl entry).pData st).2)
      else if (deref tbl entry).type = LOCKING_TYPE_SEMAPHORE then
        (0, verbose_show cfg Z tbl entry (Z.k_sem_give (deref tbl entry).pData st))
      else (-EINVAL, verbose_show cfg Z tbl entry st) := by
  unfold locking_give verbose_show
  rw [hm]
  simp only []
  by_cases h1 : (deref tbl entry).type = LOCKING_TYPE_MUTEX
  · simp only [h1, if_true]
    split <;> rfl
  · by_cases h2 : (deref tbl entry).type = LOCKING_TYPE_SEMAPHORE
    · simp only [h2, if_true, if_neg h1]
      split <;> simp
    · simp only [if_neg h1, if_neg h2]
      split <;> rfl

theorem kernel_calls_verbose_show (cfg : Config) (ret : Int) (tbl : locking_table)
    (entry : entry_ptr) (calls : List sys_call) :
    kernel_calls (verbose_show cfg (recorder ret) tbl entry calls) = kernel_calls calls := by
  unfold verbose_show
  split
  · show kernel_calls (calls ++ [sys_call.LOG_INF _ _]) = kernel_calls calls
    simp [kernel_calls, is_kernel_call]
  · rfl

/-- C11: for every registry and every id that resolves to an entry, whatever the primitives
are.  On an entry of type `LOCKING_TYPE_MUTEX`, `locking_take(id, t)` returns the status of
the one call `k_mutex_lock(pData, t)` and `locking_give(id)` the status of the one call
`k_mutex_unlock(pData)`.  On an entry of type `LOCKING_TYPE_SEMAPHORE`, `locking_take(id, t)`
returns the status of the one call `k_sem_take(pData, t)`, and `locking_give(id)` calls
`k_sem_give(pData)` once and returns 0, whatever the count and the limit are.  On an entry
of type `LOCKING_TYPE_UNKNOWN` or `LOCKING_TYPE_ANY` both return `-EINVAL` and call no
primitive.  The system afterwards is the system after that one call, followed in the verbose
build by the log line of `show`; primitives that record their calls record exactly that
call. -/
theorem dispatch_by_type (cfg : Config) :
    (∀ (σ : Type) (Z : zephyr σ) (tbl : locking_table) (id : Nat) (entry : entry_ptr)
        (t : k_timeout_t) (st : σ), locking_map tbl id = some entry →
      ((deref tbl entry).type = LOCKING_TYPE_MUTEX →
        locking_take cfg Z tbl id t st =
          ((Z.k_mutex_lock (deref tbl entry).pData t st).1,
            verbose_show cfg Z tbl entry (Z.k_mutex_lock (deref tbl entry).pData t st).2) ∧
        locking_give cfg Z tbl id st =
          ((Z.k_mutex_unlock (deref tbl entry).pData st).1,
            verbose_show cfg Z tbl entry (Z.k_mutex_unlock (deref tbl entry).pData st).2)) ∧
      ((deref tbl entry).type = LOCKING_TYPE_SEMAPHORE →
        locking_take cfg Z tbl id t st =
          ((Z.k_sem_take (deref tbl entry).pData t st).1,
            verbose_show cfg Z tbl entry (Z.k_sem_take (deref tbl entry).pData t st).2) ∧
        locking_give cfg Z tbl id st =
          (0, verbose_show cfg Z tbl entry (Z.k_sem_give (deref tbl entry).pData st))) ∧
      ((deref tbl entry).type = LOCKING_TYPE_UNKNOWN ∨
          (deref tbl entry).type = LOCKING_TYPE_ANY →
        locking_take cfg Z tbl id t st = (-EINVAL, verbose_show cfg Z tbl entry st) ∧
        locking_give cfg Z tbl id st = (-EINVAL, verbose_show cfg Z tbl entry st))) ∧
    (∀ (tbl : locking_table) (id : Nat) (entry : entry_ptr) (t : k_timeout_t) (ret : Int),
      locking_map tbl id = some entry →
      ((deref tbl entry).type = LOCKING_TYPE_MUTEX →
        (locking_take cfg (recorder ret) tbl id t []).1 = ret ∧
        kernel_calls (locking_take cfg (recorder ret) tbl id t []).2 =
          [sys_call.k_mutex_lock (deref tbl entry).pData t] ∧
        (locking_give cfg (recorder ret) tbl id []).1 = ret ∧
        kernel_calls (locking_give cfg (recorder ret) tbl id []).2 =
          [sys_call.k_mutex_unlock (deref tbl entry).pData]) ∧
      ((deref tbl entry).type = LOCKING_TYPE_SEMAPHORE →
        (locking_take cfg (recorder ret) tbl id t []).1 = ret ∧
        kernel_calls (locking_take cfg (recorder ret) tbl id t []).2 =
          [sys_call.k_sem_take (deref tbl entry).pData t] ∧
        (locking_give cfg (recorder ret) tbl id []).1 = 0 ∧
        kernel_calls (locking_give cfg (recorder ret) tbl id []).2 =
          [sys_call.k_sem_give (deref tbl entry).pData]) ∧
      ((deref tbl entry).type = LOCKING_TYPE_UNKNOWN ∨
          (deref tbl entry).type = LOCKING_TYPE_ANY →
        (locking_take cfg (recorder ret) tbl id t []).1 = -EINVAL ∧
        kernel_calls (locking_take cfg (recorder ret) tbl id t []).2 = [] ∧
        (locking_give cfg (recorder ret) tbl id []).1 = -EINVAL ∧
        kernel_calls (locking_give cfg (recorder ret) tbl id []).2 = [])) := by
  have other : ∀ ty : locking_type, ty = LOCKING_TYPE_UNKNOWN ∨ ty = LOCKING_TYPE_ANY →
      ty ≠ LOCKING_TYPE_MUTEX ∧ ty ≠ LOCKING_TYPE_SEMAPHORE := by
    intro ty h
    rcases h with rfl | rfl <;> exact ⟨by decide, by decide⟩
  constructor
  · intro σ Z tbl id entry t st hm
    have ht := locking_take_dispatch cfg Z tbl id entry t st hm
    have hg := locking_give_dispatch cfg Z tbl id entry st hm
    refine ⟨fun h => ?_, fun h => ?_, fun h => ?_⟩
    · rw [if_pos h] at ht hg
      exact ⟨ht, hg⟩
    · have h1 : (deref tbl entry).type ≠ LOCKING_TYPE_MUTEX := by rw [h]; decide
      rw [if_neg h1, if_pos h] at ht hg
      exact ⟨ht, hg⟩
    · obtain ⟨h1, h2⟩ := other _ h
      rw [if_neg h1, if_neg h2] at ht hg
      exact ⟨ht, hg⟩
  · intro tbl id entry t ret hm
    have ht := locking_take_dispatch cfg (recorder ret) tbl id entry t [] hm
    have hg := locking_give_dispatch cfg (recorder ret) tbl id entry [] hm
    refine ⟨fun h => ?_, fun h => ?_, fun h => ?_⟩
    · rw [if_pos h] at ht hg
      rw [ht, hg]
      refine ⟨rfl, ?_, rfl, ?_⟩ <;> (rw [kernel_calls_verbose_show]; rfl)
    · have h1 : (deref tbl entry).type ≠ LOCKING_TYPE_MUTEX := by rw [h]; decide
      rw [if_neg h1, if_pos h] at ht hg
      rw [ht, hg]
      refine ⟨rfl, ?_, rfl, ?_⟩ <;> (rw [kernel_calls_verbose_show]; rfl)
    · obtain ⟨h1, h2⟩ := other _ h
      rw [if_neg h1, if_neg h2] at ht hg
      rw [ht, hg]
      refine ⟨rfl, ?_, rfl, ?_⟩ <;> (rw [kernel_calls_verbose_show]; rfl)

theorem dispatch_by_type_witness :
    (locking_map four_types 0 = some 0 ∧
      (deref four_types 0).type = LOCKING_TYPE_MUTEX ∧
      (locking_take cfg_full (recorder 7) four_types 0 3000 []).1 = 7 ∧
      kernel_calls (locking_take cfg_full (recorder 7) four_types 0 3000 []).2 =
        [sys_call.k_mutex_lock (deref four_types 0).pData 3000] ∧
      (locking_give cfg_full (recorder 7) four_types 0 []).1 = 7 ∧
      kernel_calls (locking_give cfg_full (recorder 7) four_types 0 []).2 =
        [sys_call.k_mutex_unlock (deref four_types 0).pData]) ∧
    (locking_map four_types 1 = some 1 ∧
      (deref four_types 1).type = LOCKING_TYPE_SEMAPHORE ∧
      locking_take cfg_full ref_zephyr four_types 1 0 ref_boot =
        ((ref_zephyr.k_sem_take (deref four_types 1).pData 0 ref_boot).1,
          verbose_show cfg_full ref_zephyr four_types 1
            (ref_zephyr.k_sem_take (deref four_types 1).pData 0 ref_boot).2) ∧
      locking_give cfg_full ref_zephyr four_types 1 ref_boot =
        (0, verbose_show cfg_full ref_zephyr four_types 1
          (ref_zephyr.k_sem_give (deref four_types 1).pData ref_boot))) ∧
    (locking_map four_types 3 = some 3 ∧
      ((deref four_types 3).type = LOCKING_TYPE_UNKNOWN ∨
        (deref four_types 3).type = LOCKING_TYPE_ANY) ∧
      (locking_take cfg_full (recorder 7) four_types 3 3000 []).1 = -EINVAL ∧
      kernel_calls (locking_take cfg_full (recorder 7) four_types 3 3000 []).2 = [] ∧
      (locking_give cfg_full (recorder 7) four_types 3 []).1 = -EINVAL ∧
      kernel_calls (locking_give cfg_full (recorder 7) four_types 3 []).2 = []) :=
  ⟨⟨by decide, by decide,
      ((dispatch_by_type cfg_full).2 four_types 0 0 3000 7 (by decide)).1 (by decide)⟩,
    ⟨by decide, by decide,
      ((dispatch_by_type cfg_full).1 ref_state ref_zephyr four_types 1 1 0 ref_boot
        (by decide)).2.1 (by decide)⟩,
    ⟨by decide, by decide,
      ((dispatch_by_type cfg_full).2 four_types 3 3 3000 7 (by decide)).2.2 (by decide)⟩⟩

/-! ## The shell commands: status codes -/

theorem ats_give_cmd_status {σ : Type} (cfg : Config) (Z : zephyr σ) (L : locking_h σ)
    (shell : shell_ptr) (argv : List (Option String)) (a1 : String) (st : σ)
    (h1 : argv_at argv 1 = some a1) : (ats_give_cmd cfg Z L shell 2 argv st).1 = 0 := by
  unfold ats_give_cmd
  rw [h1]
  simp only [decide_True]
  split <;> rfl

theorem ats_take_cmd_take_status {σ : Type} (Z : zephyr σ) (L : locking_h σ)
    (shell : shell_ptr) (id : locking_id_t) (wait_time : Nat) (st : σ) :
    (ats_take_cmd_take Z L shell id wait_time st).1 = 0 := by
  unfold ats_take_cmd_take
  simp only []
  split <;> rfl

theorem ats_take_cmd_status_two {σ : Type} (cfg : Config) (Z : zephyr σ) (L : locking_h σ)
    (shell : shell_ptr) (argv : List (Option String)) (a1 : String) (st : σ)
    (h1 : argv_at argv 1 = some a1) : (ats_take_cmd cfg Z L shell 2 argv st).1 = 0 := by
  unfold ats_take_cmd
  rw [h1]
  simp only [true_or, decide_True, Nat.reduceEqDiff, if_false]
  exact ats_take_cmd_take_status Z L shell _ _ st

theorem ats_take_cmd_status_three {σ : Type} (cfg : Config) (Z : zephyr σ) (L : locking_h σ)
    (shell : shell_ptr) (argv : List (Option String)) (a1 a2 : String) (st : σ)
    (h1 : argv_at argv 1 = some a1) (h2 : argv_at argv 2 = some a2) :
    (ats_take_cmd cfg Z L shell 3 argv st).1 = 0 := by
  unfold ats_take_cmd
  rw [h1, h2]
  simp only [Nat.reduceEqDiff, or_true, decide_True, if_true]
  exact ats_take_cmd_take_status Z L shell _ _ st

theorem ats_get_cmd_status {σ : Type} (cfg : Config) (Z : zephyr σ) (L : locking_h σ)
    (shell : shell_ptr) (argv : List (Option String)) (a1 : String) (st : σ)
    (h1 : argv_at argv 1 = some a1) :
    (ats_get_cmd cfg Z L shell 2 argv st).1 = (L.locking_show shell (get_id cfg L a1) st).1 := by
  unfold ats_get_cmd
  rw [h1]
  simp only [decide_True]
  split <;> rfl

theorem locking_show_status {σ : Type} (cfg : Config) (Z : zephyr σ) (tbl : locking_table)
    (shell : shell_ptr) (id : Nat) (st : σ) :
    (locking_show cfg Z tbl shell id st).1 =
      if locking_valid_id tbl id = true then 0 else -EINVAL := by
  unfold locking_show locking_valid_id
  cases locking_map tbl id with
  | none => rfl
  | some entry => rfl

/-- C12: with `argc` 2 and `argv[1]` not `NULL`, the shell commands `give` and `take`
return 0, and so does `take` with `argc` 3 and `argv[1]`, `argv[2]` not `NULL`: for every
token and whatever `locking_give` and `locking_take` return, in particular when the token's
id does not resolve and they return `-EINVAL`.  The command `get` returns the status of
`locking_show`, which is `-EINVAL` when the resolved id is not valid and 0 when it is. -/
theorem shell_status_codes (cfg : Config) :
    (∀ (σ : Type) (Z : zephyr σ) (L : locking_h σ) (shell : shell_ptr)
        (argv : List (Option String)) (a1 : String) (st : σ), argv_at argv 1 = some a1 →
      (ats_give_cmd cfg Z L shell 2 argv st).1 = 0 ∧
      (ats_take_cmd cfg Z L shell 2 argv st).1 = 0 ∧
      (∀ a2 : String, argv_at argv 2 = some a2 →
        (ats_take_cmd cfg Z L shell 3 argv st).1 = 0) ∧
      (ats_get_cmd cfg Z L shell 2 argv st).1 =
        (L.locking_show shell (get_id cfg L a1) st).1) ∧
    (∀ (σ : Type) (Z : zephyr σ) (tbl : locking_table) (shell : shell_ptr)
        (argv : List (Option String)) (a1 : String) (st : σ), argv_at argv 1 = some a1 →
      (ats_get_cmd cfg Z (locking_c cfg Z tbl) shell 2 argv st).1 =
        (if locking_valid_id tbl (get_id cfg (locking_c cfg Z tbl) a1) = true then 0
          else -EINVAL) ∧
      (locking_valid_id tbl (get_id cfg (locking_c cfg Z tbl) a1) = false →
        (locking_give cfg Z tbl (get_id cfg (locking_c cfg Z tbl) a1) st).1 = -EINVAL ∧
        (ats_give_cmd cfg Z (locking_c cfg Z tbl) shell 2 argv st).1 = 0 ∧
        (locking_take cfg Z tbl (get_id cfg (locking_c cfg Z tbl) a1)
          (Z.K_SECONDS DEFAULT_WAIT_TIME_SECONDS) st).1 = -EINVAL ∧
        (ats_take_cmd cfg Z (locking_c cfg Z tbl) shell 2 argv st).1 = 0)) := by
  constructor
  · intro σ Z L shell argv a1 st h1
    exact ⟨ats_give_cmd_status cfg Z L shell argv a1 st h1,
      ats_take_cmd_status_two cfg Z L shell argv a1 st h1,
      fun a2 h2 => ats_take_cmd_status_three cfg Z L shell argv a1 a2 st h1 h2,
      ats_get_cmd_status cfg Z L shell argv a1 st h1⟩
  · intro σ Z tbl shell argv a1 st h1
    constructor
    · rw [ats_get_cmd_status cfg Z _ shell argv a1 st h1]
      exact locking_show_status cfg Z tbl shell _ st
    · intro hv
      have hm : locking_map tbl (get_id cfg (locking_c cfg Z tbl) a1) = none := by
        unfold locking_valid_id at hv
        cases hx : locking_map tbl (get_id cfg (locking_c cfg Z tbl) a1) with
        | none => rfl
        | some e => rw [hx] at hv; exact absurd hv (by simp)
      refine ⟨?_, ats_give_cmd_status cfg Z _ shell argv a1 st h1, ?_,
        ats_take_cmd_status_two cfg Z _ shell argv a1 st h1⟩
      · rw [locking_give_of_none cfg Z tbl _ st hm]
      · rw [locking_take_of_none cfg Z tbl _ _ st hm]

theorem shell_status_codes_witness :
    (argv_at [some "give", some "1"] 1 = some "1" ∧
      locking_valid_id (MG100 cfg_full)
        (get_id cfg_full (locking_c cfg_full ref_zephyr (MG100 cfg_full)) "1") = false) ∧
    ((ats_get_cmd cfg_full ref_zephyr (locking_c cfg_full ref_zephyr (MG100 cfg_full)) 7 2
        [some "give", some "1"] ref_boot).1 =
      (if locking_valid_id (MG100 cfg_full)
          (get_id cfg_full (locking_c cfg_full ref_zephyr (MG100 cfg_full)) "1") = true then 0
        else -EINVAL)) ∧
    ((locking_give cfg_full ref_zephyr (MG100 cfg_full)
        (get_id cfg_full (locking_c cfg_full ref_zephyr (MG100 cfg_full)) "1") ref_boot).1 =
        -EINVAL ∧
      (ats_give_cmd cfg_full ref_zephyr (locking_c cfg_full ref_zephyr (MG100 cfg_full)) 7 2
        [some "give", some "1"] ref_boot).1 = 0 ∧
      (locking_take cfg_full ref_zephyr (MG100 cfg_full)
        (get_id cfg_full (locking_c cfg_full ref_zephyr (MG100 cfg_full)) "1")
        (ref_zephyr.K_SECONDS DEFAULT_WAIT_TIME_SECONDS) ref_boot).1 = -EINVAL ∧
      (ats_take_cmd cfg_full ref_zephyr (locking_c cfg_full ref_zephyr (MG100 cfg_full)) 7 2
        [some "give", some "1"] ref_boot).1 = 0) ∧
    (argv_at [some "take", some "adc", some "5"] 1 = some "adc" ∧
      argv_at [some "take", some "adc", some "5"] 2 = some "5" ∧
      (ats_take_cmd cfg_full sink_recorder (api_recorder (-EAGAIN)) 7 3
        [some "take", some "adc", some "5"] []).1 = 0) :=
  ⟨⟨rfl, by decide⟩,
    ((shell_status_codes cfg_full).2 ref_state ref_zephyr (MG100 cfg_full) 7
      [some "give", some "1"] "1" ref_boot rfl).1,
    ((shell_status_codes cfg_full).2 ref_state ref_zephyr (MG100 cfg_full) 7
      [some "give", some "1"] "1" ref_boot rfl).2 (by decide),
    ⟨rfl, rfl,
      ((shell_status_codes cfg_full).1 (List shell_call) sink_recorder (api_recorder (-EAGAIN)) 7
        [some "take", some "adc", some "5"] "adc" [] rfl).2.2.1 "5" rfl⟩⟩

end Locking
